import Mathlib

/-!
Verification of the semi-dense depth-mapping core of
`src/lsd_slam/depth_estimation/depth_map.cc` (LSD-SLAM, ROS-free fork).

Shallow embedding conventions:
* `float` values are modelled as rationals (`ℚ`); machine-integer counters are
  `ℤ` or `ℚ` as noted on each field.
* Buffers (`W*H` arrays indexed by `x + y*width`) are modelled as total
  functions `ℕ → _`; only indices below `width*height` are ever relevant.
* Error codes returned as negative floats in the source are kept as rational
  return values where the caller branches on them, and as an explicit
  result type where noted.
* Code of the repository that is outside `src/` (the pixel-hypothesis header,
  `util/settings.h`, `util/global_funcs.h`) is modelled from the spec; each
  such definition carries a doc comment starting with `Modelled from the
  spec:`.
-/

set_option autoImplicit false

namespace LsdSlam

/-- Modelled from the spec: the `UNZERO` clamp threshold from
`util/settings.h` (not in `src/`); the spec only says the absolute value is
lifted to at least some `ε > 0` with the sign preserved. -/
def UNZERO_EPS : ℚ := 1 / 10000000000

/-- Modelled from the spec: the `UNZERO` clamp from `util/settings.h` (not in
`src/`): the absolute value of the argument is lifted to at least
`UNZERO_EPS` with the sign preserved. -/
def UNZERO (val : ℚ) : ℚ :=
  if val < 0 then (if val > -UNZERO_EPS then -UNZERO_EPS else val)
  else (if val < UNZERO_EPS then UNZERO_EPS else val)

/-- Modelled from the spec: the tuning constants of `util/settings.h` (not in
`src/`), consolidated into one record as the spec's design notes suggest.
Every constant is kept abstract; theorems add the (satisfiable) ordering
facts they need and witnesses instantiate concrete values. -/
structure Settings where
  MAX_VAR : ℚ
  SUCC_VAR_INC_FAC : ℚ
  FAIL_VAR_INC_FAC : ℚ
  VALIDITY_COUNTER_INC : ℚ
  VALIDITY_COUNTER_DEC : ℚ
  VALIDITY_COUNTER_MAX : ℚ
  VALIDITY_COUNTER_MAX_VARIABLE : ℚ
  VALIDITY_COUNTER_INITIAL_OBSERVE : ℚ
  MIN_EPL_LENGTH_CROP : ℚ
  DIFF_FAC_OBSERVE : ℚ
  DIFF_FAC_PROP_MERGE : ℚ
  MIN_ABS_GRAD_DECREASE : ℚ
  MAX_DIFF_CONSTANT : ℚ
  MAX_DIFF_GRAD_MULT : ℚ
  VAL_SUM_MIN_FOR_CREATE : ℚ
  VAL_SUM_MIN_FOR_UNBLACKLIST : ℚ
  VAR_RANDOM_INIT_INITIAL : ℚ
  MIN_BLACKLIST : ℤ
  allowNegativeIdepths : Bool
  cameraPixelNoise2 : ℚ
  DIVISION_EPS : ℚ
  REFERENCE_SAMPLE_DISTANCE : ℚ

/-- Modelled from the spec: one cell of the per-pixel hypothesis grid
(`depth_estimation/depth_map_pixel_hypothesis.h` is not in `src/`).  Field
names and roles follow the spec's data model.  `validity_counter` is kept as
a rational (the spec types it `i32` but the source mixes it freely with
float arithmetic and the header is unavailable, so no truncation point is
committed to); `blacklisted` is an integer counter and
`nextStereoFrameMinID` an integer frame id. -/
structure DepthMapPixelHypothesis where
  isValid : Bool
  idepth : ℚ
  idepth_var : ℚ
  idepth_smoothed : ℚ
  idepth_var_smoothed : ℚ
  validity_counter : ℚ
  blacklisted : ℤ
  nextStereoFrameMinID : ℤ
deriving DecidableEq

/-- Modelled from the spec: the three-argument constructor of
`DepthMapPixelHypothesis` (header not in `src/`): installs a valid
hypothesis with the given inverse depth, variance and validity counter; the
smoothed fields are left unset (modelled as -1), `blacklisted` is 0 and the
next-stereo frame id is 0. -/
def mkHyp (my_idepth my_idepth_var my_validity_counter : ℚ) :
    DepthMapPixelHypothesis :=
  ⟨true, my_idepth, my_idepth_var, -1, -1, my_validity_counter, 0, 0⟩

/-- An invalid cell with all numeric fields zero, used as the background of
concrete example grids. -/
def invalidHyp : DepthMapPixelHypothesis := ⟨false, 0, 0, 0, 0, 0, 0, 0⟩

/-- A depth-map buffer: hypothesis cells indexed by `x + y*width`. -/
def Grid : Type := ℕ → DepthMapPixelHypothesis

/-- Write one cell of a buffer. -/
def Grid.write (g : Grid) (i : ℕ) (h : DepthMapPixelHypothesis) : Grid :=
  fun j => if j = i then h else g j

/-- Embeds the tail of `DepthMap::observeDepthCreate`
(depth_map.cc:283-312), from the `doLineStereo` call on: the stereo call is
abstracted by its outputs `error` (returned match error or negative status
code), `result_idepth` and `result_var`.  Returns the new cell state and the
success flag. -/
def observeDepthCreatePost (target : DepthMapPixelHypothesis)
    (error result_idepth result_var : ℚ) (S : Settings) :
    DepthMapPixelHypothesis × Bool :=
  let target1 := if error = -3 ∨ error = -2 then
      { target with
          blacklisted := target.blacklisted - 1 } else target
  if error < 0 ∨ result_var > S.MAX_VAR then (target1, false)
  else (mkHyp (UNZERO result_idepth) result_var
      S.VALIDITY_COUNTER_INITIAL_OBSERVE, true)

/-- Embeds the tail of `DepthMap::observeDepthUpdate`
(depth_map.cc:378-509), from the `doLineStereo` call on: the stereo call is
abstracted by its outputs `error`, `result_idepth`, `result_var`,
`result_eplLength`.  `absGrad` is `keyFrameMaxGradBuf[idx]`, `refFrameId`
is `refFrame->id()`, `numFramesTracked` and `numMapped` are the keyframe's
`numFramesTrackedOnThis` and `numMappedOnThis` counters.  The assignment of
the float skip increment to the integer `nextStereoFrameMinID` field is the
C truncation toward zero, which on this (nonnegative) path is the floor.
Returns the new cell state and the success flag. -/
def observeDepthUpdatePost (target : DepthMapPixelHypothesis)
    (error result_idepth result_var result_eplLength : ℚ)
    (absGrad : ℚ) (refFrameId : ℤ) (numFramesTracked numMapped : ℚ)
    (S : Settings) : DepthMapPixelHypothesis × Bool :=
  let diff := result_idepth - target.idepth_smoothed
  if error = -5 then (target, false)
  else if error = -1 then (target, false)
  else if error = -2 then
    let vc := target.validity_counter - S.VALIDITY_COUNTER_DEC
    let vc := if vc < 0 then 0 else vc
    let var1 := target.idepth_var * S.FAIL_VAR_INC_FAC
    if var1 > S.MAX_VAR then
      ({ target with
          validity_counter := vc
          nextStereoFrameMinID := 0
          idepth_var := var1
          isValid := false
          blacklisted := target.blacklisted - 1 }, false)
    else
      ({ target with
          validity_counter := vc
          nextStereoFrameMinID := 0
          idepth_var := var1 }, false)
  else if error = -3 then (target, false)
  else if error = -4 then (target, false)
  else if S.DIFF_FAC_OBSERVE * diff * diff >
      result_var + target.idepth_var_smoothed then
    let var1 := target.idepth_var * S.FAIL_VAR_INC_FAC
    if var1 > S.MAX_VAR then
      ({ target with
          idepth_var := var1
          isValid := false }, false)
    else ({ target with
          idepth_var := var1 }, false)
  else
    let id_var := target.idepth_var * S.SUCC_VAR_INC_FAC
    let w := result_var / (result_var + id_var)
    let new_idepth := (1 - w) * result_idepth + w * target.idepth
    let idepth2 := UNZERO new_idepth
    let id_var2 := id_var * w
    let var2 := if id_var2 < target.idepth_var then id_var2
      else target.idepth_var
    let vc1 := target.validity_counter + S.VALIDITY_COUNTER_INC
    let cap := S.VALIDITY_COUNTER_MAX +
      absGrad * S.VALIDITY_COUNTER_MAX_VARIABLE / 255
    let vc2 := if vc1 > cap then cap else vc1
    let nsid := if result_eplLength < S.MIN_EPL_LENGTH_CROP then
        let inc0 := numFramesTracked / (numMapped + 5)
        let inc1 := if inc0 < 3 then 3 else inc0
        let inc2 := inc1 + ((((result_eplLength * 10000).floor % 2 : ℤ)) : ℚ)
        let inc3 := if result_eplLength < 0.5 * S.MIN_EPL_LENGTH_CROP then
            inc2 * 3 else inc2
        ((refFrameId : ℚ) + inc3).floor
      else target.nextStereoFrameMinID
    ({ target with
        idepth := idepth2
        idepth_var := var2
        validity_counter := vc2
        nextStereoFrameMinID := nsid }, true)

/-- A 3-vector of rationals (Eigen `Vector3f`). -/
structure Vec3 where
  x : ℚ
  y : ℚ
  z : ℚ
deriving DecidableEq

/-- A 3x3 rational matrix (Eigen `Matrix3f`), row major. -/
structure Mat3 where
  m00 : ℚ
  m01 : ℚ
  m02 : ℚ
  m10 : ℚ
  m11 : ℚ
  m12 : ℚ
  m20 : ℚ
  m21 : ℚ
  m22 : ℚ

/-- Matrix-vector product. -/
def Mat3.mulVec (M : Mat3) (v : Vec3) : Vec3 :=
  ⟨M.m00 * v.x + M.m01 * v.y + M.m02 * v.z,
   M.m10 * v.x + M.m11 * v.y + M.m12 * v.z,
   M.m20 * v.x + M.m21 * v.y + M.m22 * v.z⟩

/-- Vector addition. -/
def Vec3.add (a b : Vec3) : Vec3 := ⟨a.x + b.x, a.y + b.y, a.z + b.z⟩

/-- Division of a vector by a scalar. -/
def Vec3.divScalar (a : Vec3) (s : ℚ) : Vec3 := ⟨a.x / s, a.y / s, a.z / s⟩

/-- Modelled from the spec: `getInterpolatedElement` of `util/global_funcs.h`
(not in `src/`): bilinear interpolation of a `width`-strided image buffer at
a sub-pixel coordinate.  The integer part is taken by the C float-to-int
cast, which for the nonnegative coordinates used here is the floor. -/
def getInterpolatedElement (mat : ℕ → ℚ) (p : ℚ × ℚ) (width : ℕ) : ℚ :=
  let ix := p.1.floor
  let iy := p.2.floor
  let dx := p.1 - ix
  let dy := p.2 - iy
  let dxdy := dx * dy
  let base := ix.toNat + iy.toNat * width
  dxdy * mat (base + 1 + width) + (dy - dxdy) * mat (base + width) +
    (dx - dxdy) * mat (base + 1) + (1 - dx - dy + dxdy) * mat base

/-- The fixed data `DepthMap::propagateDepth` (depth_map.cc:512-674) reads:
grid geometry, intrinsics (`fx, fy, cx, cy` and the entries of the inverse
calibration matrix), the inverse transform `oldToNew_SE3` split into
`trafoInv_R` and `trafoInv_t`, the optional tracking-good mask (subsampled
at `SE3TRACKING_MIN_LEVEL`, modelled by `trackingWasGood` together with the
shift `level`), the three image buffers, and the source map `curr`. -/
structure PropagationSetup where
  W : ℕ
  H : ℕ
  fx : ℚ
  fy : ℚ
  cx : ℚ
  cy : ℚ
  fxi : ℚ
  fyi : ℚ
  cxi : ℚ
  cyi : ℚ
  trafoInv_R : Mat3
  trafoInv_t : Vec3
  trackingWasGood : Option (ℕ → Bool)
  level : ℕ
  activeKFImageData : ℕ → ℚ
  newKFImageData : ℕ → ℚ
  newKFMaxGrad : ℕ → ℚ
  curr : Grid

/-- The warped source point of one propagation step
(depth_map.cc:559-560): `pn = R*(x*fxi+cxi, y*fyi+cyi, 1)/idepth_smoothed
+ t` at source pixel `idx = x + y*width`. -/
def warpedPoint (P : PropagationSetup) (idx : ℕ) : Vec3 :=
  ((P.trafoInv_R.mulVec
      ⟨((idx % P.W : ℕ) : ℚ) * P.fxi + P.cxi,
        ((idx / P.W : ℕ) : ℚ) * P.fyi + P.cyi, 1⟩).divScalar
      (P.curr idx).idepth_smoothed).add P.trafoInv_t

/-- The projected destination column `u_new` (depth_map.cc:562-564). -/
def propagatedU (P : PropagationSetup) (idx : ℕ) : ℚ :=
  (warpedPoint P idx).x * (1 / (warpedPoint P idx).z) * P.fx + P.cx

/-- The projected destination row `v_new` (depth_map.cc:562-565). -/
def propagatedV (P : PropagationSetup) (idx : ℕ) : ℚ :=
  (warpedPoint P idx).y * (1 / (warpedPoint P idx).z) * P.fy + P.cy

/-- The flat destination index `(int)(u_new+0.5f) + (int)(v_new+0.5f)*width`
(depth_map.cc:575); the C casts are floors on this path because the
rectangle check has already bounded both coordinates below by 2.1. -/
def propagatedIDX (P : PropagationSetup) (idx : ℕ) : ℕ :=
  (propagatedU P idx + 0.5).floor.toNat +
    (propagatedV P idx + 0.5).floor.toNat * P.W

/-- Embeds one iteration of the per-source-pixel loop of
`DepthMap::propagateDepth` (depth_map.cc:548-670): reads source cell `idx`
of `P.curr` and returns the updated destination buffer.  The source's
occlusion case that first invalidates the destination and then installs the
new hypothesis is collapsed into the direct install. -/
def propagateStep (P : PropagationSetup) (S : Settings) (oth : Grid)
    (idx : ℕ) : Grid :=
  let source := P.curr idx
  if ¬ source.isValid then oth else
  let x := idx % P.W
  let y := idx / P.W
  let pn := warpedPoint P idx
  let new_idepth := 1 / pn.z
  let u_new := propagatedU P idx
  let v_new := propagatedV P idx
  if ¬ (u_new > 2.1 ∧ v_new > 2.1 ∧ u_new < (P.W : ℚ) - 3.1 ∧
      v_new < (P.H : ℚ) - 3.1) then oth else
  let newIDX := propagatedIDX P idx
  let destAbsGrad := P.newKFMaxGrad newIDX
  let keep : Bool := match P.trackingWasGood with
    | some mask =>
        ¬ (¬ mask ((x >>> P.level) + (P.W >>> P.level) * (y >>> P.level)) ∨
           destAbsGrad < S.MIN_ABS_GRAD_DECREASE)
    | none =>
        let sourceColor := P.activeKFImageData (x + y * P.W)
        let destColor := getInterpolatedElement P.newKFImageData
          (u_new, v_new) P.W
        let residual := destColor - sourceColor
        ¬ (residual * residual / (S.MAX_DIFF_CONSTANT +
            S.MAX_DIFF_GRAD_MULT * destAbsGrad * destAbsGrad) > 1 ∨
           destAbsGrad < S.MIN_ABS_GRAD_DECREASE)
  if ¬ keep then oth else
  let idepth_ratio_2 := (new_idepth / source.idepth_smoothed) *
    (new_idepth / source.idepth_smoothed)
  let idepth_ratio_4 := idepth_ratio_2 * idepth_ratio_2
  let new_var := idepth_ratio_4 * source.idepth_var
  let targetBest := oth newIDX
  if targetBest.isValid ∧
      S.DIFF_FAC_PROP_MERGE * (targetBest.idepth - new_idepth) *
        (targetBest.idepth - new_idepth) >
        new_var + targetBest.idepth_var then
    if new_idepth < targetBest.idepth then oth
    else oth.write newIDX (mkHyp new_idepth new_var source.validity_counter)
  else if ¬ targetBest.isValid then
    oth.write newIDX (mkHyp new_idepth new_var source.validity_counter)
  else
    let w := new_var / (targetBest.idepth_var + new_var)
    let merged_new_idepth := w * targetBest.idepth + (1 - w) * new_idepth
    let mv0 := source.validity_counter + targetBest.validity_counter
    let mv := if mv0 > S.VALIDITY_COUNTER_MAX +
        S.VALIDITY_COUNTER_MAX_VARIABLE then
        S.VALIDITY_COUNTER_MAX + S.VALIDITY_COUNTER_MAX_VARIABLE else mv0
    oth.write newIDX (mkHyp merged_new_idepth
      (1 / (1 / targetBest.idepth_var + 1 / new_var)) mv)

/-- Embeds the wipe of the destination buffer at the start of
`DepthMap::propagateDepth` (depth_map.cc:521-526): every cell is set
invalid with blacklist 0 (the other fields keep their stale values, as in
the source). -/
def propagateWipe (g : Grid) : Grid :=
  fun i => { g i with
      isValid := false
      blacklisted := 0 }

/-- Embeds `DepthMap::propagateDepth` (depth_map.cc:512-674): wipe the
destination buffer, fold the per-source-pixel step over all pixels of the
old map in the source's iteration order (`idx = x + y*width` ascending),
then swap the buffers.  The returned pair is
(`currentDepthMap`, `otherDepthMap`) after the swap. -/
def propagateDepth (P : PropagationSetup) (S : Settings) (othInit : Grid) :
    Grid × Grid :=
  let wiped := propagateWipe othInit
  (List.foldl (propagateStep P S) wiped (List.range (P.W * P.H)), P.curr)

/-- The contribution of cell `(x, y)` to the validity integral buffer:
its validity counter if it is valid, else 0
(`DepthMap::buildRegIntegralBufferRow1`, depth_map.cc:753-754). -/
def cellContrib (g : Grid) (W x y : ℕ) : ℚ :=
  if (g (x + y * W)).isValid then (g (x + y * W)).validity_counter else 0

/-- Embeds the row pass of `DepthMap::buildRegIntegralBuffer`
(depth_map.cc:742-760): the running sum restarts at every row, so cell
`(x, y)` holds the sum of the contributions of cells `(0, y) .. (x, y)`.
The loop's running accumulator is expressed as structural recursion on
`x`. -/
def vibRow (g : Grid) (W : ℕ) : ℕ → ℕ → ℚ
  | 0, y => cellContrib g W 0 y
  | x + 1, y => vibRow g W x y + cellContrib g W (x + 1) y

/-- Embeds the full `DepthMap::buildRegIntegralBuffer`
(depth_map.cc:763-776): after the row pass, the column pass walks the flat
buffer upward adding the (already final) cell one row above, so cell
`(x, y)` ends at `rowvalue(x, y) + final(x, y-1)`.  The sequential loop is
expressed as structural recursion on `y`. -/
def vib (g : Grid) (W : ℕ) : ℕ → ℕ → ℚ
  | x, 0 => vibRow g W x 0
  | x, y + 1 => vibRow g W x (y + 1) + vib g W x y

/-- The 5x5 window combination the fill-holes row reads from the integral
buffer (`depth_map.cc:691-692`): at flat index `x + y*width` the source
reads offsets `2+2w`, `2-3w`, `-3+2w`, `-3-3w`, which for in-row interior
pixels are the cells `(x+2, y+2)`, `(x+2, y-3)`, `(x-3, y+2)`,
`(x-3, y-3)`. -/
def vibWindowVal (g : Grid) (W x y : ℕ) : ℚ :=
  vib g W (x + 2) (y + 2) - vib g W (x + 2) (y - 3) -
    vib g W (x - 3) (y + 2) + vib g W (x - 3) (y - 3)

/-- The weighted sums accumulated over the 5x5 neighborhood by
`DepthMap::regularizeDepthMapFillHolesRow` (depth_map.cc:698-711): sum of
`idepth/idepth_var` over valid neighbors. -/
def fillHolesSumIdepthObs (oth : Grid) (W x y : ℕ) : ℚ :=
  ∑ j ∈ Finset.range 5, ∑ i ∈ Finset.range 5,
    (let source := oth ((x - 2 + i) + (y - 2 + j) * W)
     if source.isValid then source.idepth / source.idepth_var else 0)

/-- The second accumulator of the same loop: sum of `1/idepth_var` over
valid neighbors. -/
def fillHolesSumIVarObs (oth : Grid) (W x y : ℕ) : ℚ :=
  ∑ j ∈ Finset.range 5, ∑ i ∈ Finset.range 5,
    (let source := oth ((x - 2 + i) + (y - 2 + j) * W)
     if source.isValid then 1 / source.idepth_var else 0)

/-- Embeds the per-cell body of `DepthMap::regularizeDepthMapFillHolesRow`
(depth_map.cc:684-724), reading the snapshot `oth` and the validity
integral of the pre-pass map, and producing the new `currentDepthMap`
cell. -/
def fillHolesCell (cur oth : Grid) (keyFrameMaxGradBuf : ℕ → ℚ)
    (S : Settings) (W x y : ℕ) : DepthMapPixelHypothesis :=
  let idx := x + y * W
  let dest := oth idx
  if dest.isValid then cur idx
  else if keyFrameMaxGradBuf idx < S.MIN_ABS_GRAD_DECREASE then cur idx
  else
    let val := vibWindowVal oth W x y
    if (dest.blacklisted ≥ S.MIN_BLACKLIST ∧
        val > S.VAL_SUM_MIN_FOR_CREATE) ∨
        val > S.VAL_SUM_MIN_FOR_UNBLACKLIST then
      let idepthObs := fillHolesSumIdepthObs oth W x y /
        fillHolesSumIVarObs oth W x y
      mkHyp (UNZERO idepthObs) S.VAR_RANDOM_INIT_INITIAL 0
    else cur idx

/-- Embeds `DepthMap::regularizeDepthMapFillHoles` (depth_map.cc:729-738):
the integral buffer is built from `currentDepthMap`, `otherDepthMap`
becomes a snapshot of `currentDepthMap`, and the row workers cover
`y ∈ [3, height-2)`, `x ∈ [3, width-2)`; every cell outside that range is
left unchanged.  Each worker writes only its own cell of
`currentDepthMap`, so the parallel pass is a pointwise map.  Note the
integral buffer here is built from the same map that is snapshotted, as in
the source (`buildRegIntegralBuffer` runs before the `memcpy`, and both
read `currentDepthMap`). -/
def regularizeDepthMapFillHoles (g : Grid) (keyFrameMaxGradBuf : ℕ → ℚ)
    (S : Settings) (W H : ℕ) : Grid :=
  fun idx =>
    let x := idx % W
    let y := idx / W
    if 3 ≤ y ∧ y + 2 < H ∧ 3 ≤ x ∧ x + 2 < W then
      fillHolesCell g g keyFrameMaxGradBuf S W x y
    else g idx

/-- Embeds the mean-rescaling epilogue of `DepthMap::createKeyFrame`
(depth_map.cc:1250-1271): the sum and count of `idepth_smoothed` over
valid cells of the `n = width*height` buffer, the factor `n/sum`, and the
per-cell multiplication.  This is the last mutation of the grid before
`createKeyFrame` exports it. -/
def rescaleSumIdepth (g : Grid) (n : ℕ) : ℚ :=
  ∑ i ∈ Finset.range n, if (g i).isValid then (g i).idepth_smoothed else 0

/-- The `numIdepth` accumulator of the same loop: the number of valid
cells, accumulated as a float in the source. -/
def rescaleNumIdepth (g : Grid) (n : ℕ) : ℚ :=
  ∑ i ∈ Finset.range n, if (g i).isValid then (1 : ℚ) else 0

/-- The rescale pass itself: every valid cell has `idepth` and
`idepth_smoothed` multiplied by `rescaleFactor = numIdepth/sumIdepth` and
both variances multiplied by its square. -/
def createKeyFrameRescale (g : Grid) (n : ℕ) : Grid :=
  let rescaleFactor := rescaleNumIdepth g n / rescaleSumIdepth g n
  let rescaleFactor2 := rescaleFactor * rescaleFactor
  fun i =>
    if i < n ∧ (g i).isValid then
      { g i with
          idepth := (g i).idepth * rescaleFactor
          idepth_smoothed := (g i).idepth_smoothed * rescaleFactor
          idepth_var := (g i).idepth_var * rescaleFactor2
          idepth_var_smoothed := (g i).idepth_var_smoothed * rescaleFactor2 }
    else g i

/-- Embeds `calc_geometric_disparity_error` (depth_map.cc:64-75); the
two-component vectors are passed as pairs, `DIVISION_EPS` comes from the
settings record. -/
def calc_geometric_disparity_error (interpolated_gradient : ℚ × ℚ)
    (epipolar_direction : ℚ × ℚ) (initialTrackedResidual DIVISION_EPS : ℚ) :
    ℚ :=
  let trackingErrorFac := 0.25 * (1 + initialTrackedResidual)
  let p := epipolar_direction.1 * interpolated_gradient.1 +
    epipolar_direction.2 * interpolated_gradient.2 + DIVISION_EPS
  let n := interpolated_gradient.1 * interpolated_gradient.1 +
    interpolated_gradient.2 * interpolated_gradient.2
  trackingErrorFac * trackingErrorFac * n / (p * p)

/-- Modelled from the spec: `getInterpolatedElement42` of
`util/global_funcs.h` (not in `src/`): bilinear interpolation of the first
two channels (the x and y gradient) of the keyframe gradient buffer. -/
def getInterpolatedElement42 (grad : ℕ → ℚ × ℚ) (p : ℚ × ℚ) (width : ℕ) :
    ℚ × ℚ :=
  let ix := p.1.floor
  let iy := p.2.floor
  let dx := p.1 - ix
  let dy := p.2 - iy
  let dxdy := dx * dy
  let base := ix.toNat + iy.toNat * width
  (dxdy * (grad (base + 1 + width)).1 + (dy - dxdy) * (grad (base + width)).1 +
     (dx - dxdy) * (grad (base + 1)).1 + (1 - dx - dy + dxdy) * (grad base).1,
   dxdy * (grad (base + 1 + width)).2 + (dy - dxdy) * (grad (base + width)).2 +
     (dx - dxdy) * (grad (base + 1)).2 + (1 - dx - dy + dxdy) * (grad base).2)

/-- The data live at the depth-extraction point of `DepthMap::doLineStereo`
(depth_map.cc:1769 on): the back-projected keyframe pixel `KinvP`, the
refined match `argmin_point_ref` and search step `ref_search_step` in the
reference image, the precomputed `otherToThis_R`/`otherToThis_t`, the
inverse intrinsics, the keyframe gradient buffer, the epipolar direction
and keyframe pixel, and the scalars carried from the search. -/
structure StereoTailSetup where
  W : ℕ
  fxi : ℚ
  fyi : ℚ
  cxi : ℚ
  cyi : ℚ
  KinvP : Vec3
  argmin_point_ref : ℚ × ℚ
  ref_search_step : ℚ × ℚ
  otherToThis_R : Mat3
  otherToThis_t : Vec3
  gradients : ℕ → ℚ × ℚ
  keyframe_coordinate : ℚ × ℚ
  key_epipolar_direction : ℚ × ℚ
  key_sample_distance : ℚ
  gradAlongLine : ℚ
  min_error : ℚ
  eplLength : ℚ
  initialTrackedResidual : ℚ
  interpolated : Bool

/-- The inverse depth selected by the depth-extraction block of
`DepthMap::doLineStereo` (depth_map.cc:1777-1801): the x- or y-channel
candidate, picked by the larger squared component of the search step. -/
def stereoSelectedIdNew (T : StereoTailSetup) : ℚ :=
  let RKinvP := T.otherToThis_R.mulVec T.KinvP
  let inv_cp : Vec3 := ⟨T.fxi * T.argmin_point_ref.1 + T.cxi,
    T.fyi * T.argmin_point_ref.2 + T.cyi, 1⟩
  let nominatorX := inv_cp.x * T.otherToThis_t.z -
    inv_cp.z * T.otherToThis_t.x
  let nominatorY := inv_cp.y * T.otherToThis_t.z -
    inv_cp.z * T.otherToThis_t.y
  let idnewX := (RKinvP.x * inv_cp.z - RKinvP.z * inv_cp.x) / nominatorX
  let idnewY := (RKinvP.y * inv_cp.z - RKinvP.z * inv_cp.y) / nominatorY
  if T.ref_search_step.1 * T.ref_search_step.1 >
      T.ref_search_step.2 * T.ref_search_step.2 then idnewX else idnewY

/-- The matching disparity Jacobian `alpha` of the same block. -/
def stereoSelectedAlpha (T : StereoTailSetup) : ℚ :=
  let RKinvP := T.otherToThis_R.mulVec T.KinvP
  let inv_cp : Vec3 := ⟨T.fxi * T.argmin_point_ref.1 + T.cxi,
    T.fyi * T.argmin_point_ref.2 + T.cyi, 1⟩
  let betaX := RKinvP.x * T.otherToThis_t.z - RKinvP.z * T.otherToThis_t.x
  let betaY := RKinvP.y * T.otherToThis_t.z - RKinvP.z * T.otherToThis_t.y
  let nominatorX := inv_cp.x * T.otherToThis_t.z -
    inv_cp.z * T.otherToThis_t.x
  let nominatorY := inv_cp.y * T.otherToThis_t.z -
    inv_cp.z * T.otherToThis_t.y
  let alphaX := T.ref_search_step.1 * T.fxi * betaX /
    (nominatorX * nominatorX)
  let alphaY := T.ref_search_step.2 * T.fyi * betaY /
    (nominatorY * nominatorY)
  if T.ref_search_step.1 * T.ref_search_step.1 >
      T.ref_search_step.2 * T.ref_search_step.2 then alphaX else alphaY

/-- Result of the final block of `doLineStereo`: either the negative status
code of a rejection, or the successful match error with `result_idepth`,
`result_var` and `result_eplLength`. -/
inductive StereoTailResult where
  | errCode (code : ℤ) : StereoTailResult
  | ok (matchErr result_idepth result_var result_eplLength : ℚ) :
      StereoTailResult
deriving DecidableEq

/-- Embeds the tail of `DepthMap::doLineStereo` from the depth extraction
on (depth_map.cc:1769-1865): select the inverse-depth candidate and its
Jacobian, reject with `-2` when it is negative and negative inverse depths
are not enabled, otherwise compute the geometric and photometric
disparity errors and the result variance and return the match error. -/
def doLineStereoTail (T : StereoTailSetup) (S : Settings) :
    StereoTailResult :=
  let idnew_best_match := stereoSelectedIdNew T
  let alpha := stereoSelectedAlpha T
  if idnew_best_match < 0 ∧ ¬ S.allowNegativeIdepths then .errCode (-2)
  else
    let geoDispError := calc_geometric_disparity_error
      (getInterpolatedElement42 T.gradients T.keyframe_coordinate T.W)
      (T.key_epipolar_direction.1 * S.REFERENCE_SAMPLE_DISTANCE,
       T.key_epipolar_direction.2 * S.REFERENCE_SAMPLE_DISTANCE)
      T.initialTrackedResidual S.DIVISION_EPS
    let coeff : ℚ := if T.interpolated then 0.05 else 0.5
    let photoDispError := 4 * S.cameraPixelNoise2 /
      (T.gradAlongLine + S.DIVISION_EPS)
    let result_var := alpha * alpha *
      (coeff * T.key_sample_distance * T.key_sample_distance +
        geoDispError + photoDispError)
    .ok T.min_error idnew_best_match result_var T.eplLength

/-- Concrete settings used by witnesses and counterexamples, with values
close to the shipped LSD-SLAM defaults. -/
def exSettings : Settings where
  MAX_VAR := 1/4
  SUCC_VAR_INC_FAC := 101/100
  FAIL_VAR_INC_FAC := 11/10
  VALIDITY_COUNTER_INC := 5
  VALIDITY_COUNTER_DEC := 5
  VALIDITY_COUNTER_MAX := 30
  VALIDITY_COUNTER_MAX_VARIABLE := 1500
  VALIDITY_COUNTER_INITIAL_OBSERVE := 5
  MIN_EPL_LENGTH_CROP := 3
  DIFF_FAC_OBSERVE := 1
  DIFF_FAC_PROP_MERGE := 1
  MIN_ABS_GRAD_DECREASE := 1
  MAX_DIFF_CONSTANT := 40
  MAX_DIFF_GRAD_MULT := 1/2
  VAL_SUM_MIN_FOR_CREATE := 30
  VAL_SUM_MIN_FOR_UNBLACKLIST := 100
  VAR_RANDOM_INIT_INITIAL := 1/2
  MIN_BLACKLIST := -1
  allowNegativeIdepths := false
  cameraPixelNoise2 := 16
  DIVISION_EPS := 1/10
  REFERENCE_SAMPLE_DISTANCE := 1

/-- An all-invalid destination buffer. -/
def baseGrid : Grid := fun _ => invalidHyp

/-- Concrete propagation setup for the C2 counterexample: a 6x6 grid with
identity intrinsics and rotation, translation `(-13/2, -13/2, -3)`, and a
single valid source cell at `(2, 2)` (flat index 14) with unit smoothed
inverse depth.  Its warped point is `(-9/2, -9/2, -2)`: behind the camera,
yet projecting to `(9/4, 9/4)` inside the acceptance rectangle. -/
def c2Setup : PropagationSetup where
  W := 6
  H := 6
  fx := 1
  fy := 1
  cx := 0
  cy := 0
  fxi := 1
  fyi := 1
  cxi := 0
  cyi := 0
  trafoInv_R := ⟨1, 0, 0, 0, 1, 0, 0, 0, 1⟩
  trafoInv_t := ⟨-13/2, -13/2, -3⟩
  trackingWasGood := none
  level := 0
  activeKFImageData := fun _ => 0
  newKFImageData := fun _ => 0
  newKFMaxGrad := fun _ => 2
  curr := fun i => if i = 14 then ⟨true, 1, 1, 1, 1, 4, 0, 0⟩ else invalidHyp

/-- Propagation setup for the C2 witness: identical to `c2Setup` but with
zero translation, so the source at `(2, 2)` projects to `(2, 2)`, outside
the acceptance rectangle. -/
def c2WitnessSetup : PropagationSetup where
  W := 6
  H := 6
  fx := 1
  fy := 1
  cx := 0
  cy := 0
  fxi := 1
  fyi := 1
  cxi := 0
  cyi := 0
  trafoInv_R := ⟨1, 0, 0, 0, 1, 0, 0, 0, 1⟩
  trafoInv_t := ⟨0, 0, 0⟩
  trackingWasGood := none
  level := 0
  activeKFImageData := fun _ => 0
  newKFImageData := fun _ => 0
  newKFMaxGrad := fun _ => 2
  curr := fun i => if i = 14 then ⟨true, 1, 1, 1, 1, 4, 0, 0⟩ else invalidHyp

/-- Propagation setup shared by the C1 counterexample and the C7 witness:
a 6x6 grid, identity intrinsics and rotation, translation
`(-11/2, -11/2, -2)`, and a single valid source at `(3, 3)` (flat index
21).  The warped point is `(-5/2, -5/2, -1)`: behind the camera, but
projecting to `(5/2, 5/2)`, inside the acceptance rectangle; the rounded
destination is cell 21 again. -/
def propSetupNeg : PropagationSetup where
  W := 6
  H := 6
  fx := 1
  fy := 1
  cx := 0
  cy := 0
  fxi := 1
  fyi := 1
  cxi := 0
  cyi := 0
  trafoInv_R := ⟨1, 0, 0, 0, 1, 0, 0, 0, 1⟩
  trafoInv_t := ⟨-11/2, -11/2, -2⟩
  trackingWasGood := none
  level := 0
  activeKFImageData := fun _ => 0
  newKFImageData := fun _ => 0
  newKFMaxGrad := fun _ => 2
  curr := fun i => if i = 21 then ⟨true, 1, 1, 1, 1, 4, 0, 0⟩ else invalidHyp

/-- Propagation setup for the C7 counterexample: translation
`(-4/5, -4/5, 0)` moves the valid source at `(3, 3)` to the projection
`(11/5, 11/5) = (2.2, 2.2)`, inside the acceptance rectangle; rounding
writes destination `(2, 2)` — a border pixel in the frozen claim's
width-3 sense. -/
def c7Setup : PropagationSetup where
  W := 6
  H := 6
  fx := 1
  fy := 1
  cx := 0
  cy := 0
  fxi := 1
  fyi := 1
  cxi := 0
  cyi := 0
  trafoInv_R := ⟨1, 0, 0, 0, 1, 0, 0, 0, 1⟩
  trafoInv_t := ⟨-4/5, -4/5, 0⟩
  trackingWasGood := none
  level := 0
  activeKFImageData := fun _ => 0
  newKFImageData := fun _ => 0
  newKFMaxGrad := fun _ => 2
  curr := fun i => if i = 21 then ⟨true, 1, 1, 1, 1, 4, 0, 0⟩ else invalidHyp

/-- Concrete tail setup for the C8 witness: the selected (x-channel)
inverse depth evaluates to `-1`. -/
def c8Setup : StereoTailSetup where
  W := 6
  fxi := 1
  fyi := 1
  cxi := 0
  cyi := 0
  KinvP := ⟨0, 0, 1⟩
  argmin_point_ref := (1, 1)
  ref_search_step := (1, 0)
  otherToThis_R := ⟨1, 0, 0, 0, 1, 0, 0, 0, 1⟩
  otherToThis_t := ⟨0, 0, 1⟩
  gradients := fun _ => (0, 0)
  keyframe_coordinate := (3, 3)
  key_epipolar_direction := (1, 0)
  key_sample_distance := 1
  gradAlongLine := 0
  min_error := 5
  eplLength := 2
  initialTrackedResidual := 0
  interpolated := false

/-- Concrete grid for the C6 witness on an 8x8 buffer: every cell is valid
with `idepth = 2`, `idepth_var = 1`, validity 20, except the target cell
`(3, 3)` (flat index 27), which is invalid and not blacklisted. -/
def c6Grid : Grid := fun i =>
  if i = 27 then invalidHyp else ⟨true, 2, 1, 2, 1, 20, 0, 0⟩

/-- Concrete 8-wide grid for the C10 witness: a single valid cell at
`(4, 2)` with validity counter 7. -/
def c10Grid : Grid := fun i => if i = 20 then mkHyp 2 1 7 else invalidHyp

/-- Concrete two-cell grid for the C9 witness: one valid cell with
`idepth_smoothed = 4`, one invalid cell. -/
def c9Grid : Grid := fun i =>
  if i = 0 then ⟨true, 3, 2, 4, 5, 6, 0, 0⟩ else invalidHyp


section Helpers

/-- An invariant preserved by every step of a left fold holds of the
result. -/
theorem foldl_invariant {α β : Type} (f : α → β → α) (P : α → Prop)
    (hstep : ∀ st b, P st → P (f st b)) :
    ∀ (l : List β) (st : α), P st → P (List.foldl f st l)
  | [], _, h => h
  | b :: l, st, h =>
      foldl_invariant f P hstep l (f st b) (hstep st b h)

/-- The UNZERO clamp of a nonnegative value is strictly positive. -/
theorem UNZERO_pos_of_nonneg {v : ℚ} (h : 0 ≤ v) : 0 < UNZERO v := by
  unfold UNZERO UNZERO_EPS
  rw [if_neg (by linarith)]
  split
  · norm_num
  · rename_i hv
    push_neg at hv
    linarith

/-- The UNZERO clamp is the identity at or above the threshold. -/
theorem UNZERO_eq_self {v : ℚ} (h : UNZERO_EPS ≤ v) : UNZERO v = v := by
  have h0 : (0 : ℚ) < UNZERO_EPS := by norm_num [UNZERO_EPS]
  unfold UNZERO
  rw [if_neg (by linarith), if_neg (by linarith)]

/-- The row pass of the integral buffer computes per-row running sums. -/
theorem vibRow_eq_sum (g : Grid) (W : ℕ) (x y : ℕ) :
    vibRow g W x y = ∑ i ∈ Finset.range (x + 1), cellContrib g W i y := by
  induction x with
  | zero => simp [vibRow]
  | succ n ih => rw [vibRow, ih, ← Finset.sum_range_succ]

/-- After the column pass, the integral buffer holds full two-dimensional
prefix sums of the validity contributions. -/
theorem vib_eq_sum (g : Grid) (W : ℕ) (x y : ℕ) :
    vib g W x y = ∑ j ∈ Finset.range (y + 1),
      ∑ i ∈ Finset.range (x + 1), cellContrib g W i j := by
  induction y with
  | zero => simp [vib, vibRow_eq_sum]
  | succ n ih =>
      rw [vib, ih, vibRow_eq_sum,
        Finset.sum_range_succ
          (fun j => ∑ i ∈ Finset.range (x + 1), cellContrib g W i j) (n + 1)]
      ring

/-- Inclusion-exclusion on two-dimensional prefix sums: the four-corner
combination recovers the rectangular block sum. -/
theorem double_sum_window (c : ℕ → ℕ → ℚ) (A B m n : ℕ) :
    (∑ j ∈ Finset.range (B + n), ∑ i ∈ Finset.range (A + m), c i j) -
      (∑ j ∈ Finset.range B, ∑ i ∈ Finset.range (A + m), c i j) -
      (∑ j ∈ Finset.range (B + n), ∑ i ∈ Finset.range A, c i j) +
      (∑ j ∈ Finset.range B, ∑ i ∈ Finset.range A, c i j) =
    ∑ j ∈ Finset.range n, ∑ i ∈ Finset.range m, c (A + i) (B + j) := by
  have hsplit : ∀ d : ℕ → ℕ → ℚ, ∀ q : ℕ,
      (∑ j ∈ Finset.range (B + n), ∑ i ∈ Finset.range q, d i j) =
      (∑ j ∈ Finset.range B, ∑ i ∈ Finset.range q, d i j) +
      ∑ j ∈ Finset.range n, ∑ i ∈ Finset.range q, d i (B + j) := by
    intro d q
    exact Finset.sum_range_add (fun j => ∑ i ∈ Finset.range q, d i j) B n
  rw [hsplit, hsplit]
  have hinner : ∀ j : ℕ,
      (∑ i ∈ Finset.range (A + m), c i (B + j)) =
      (∑ i ∈ Finset.range A, c i (B + j)) +
      ∑ i ∈ Finset.range m, c (A + i) (B + j) := by
    intro j
    exact Finset.sum_range_add (fun i => c i (B + j)) A m
  rw [Finset.sum_congr rfl (fun j _ => hinner j), Finset.sum_add_distrib]
  ring

/-- The integral-buffer window combination read by the fill-holes row
equals the direct 5x5 block sum of validity contributions, for pixels at
least 3 away from the left and top borders. -/
theorem vibWindow_eq_block_sum (g : Grid) (W x y : ℕ)
    (hx : 3 ≤ x) (hy : 3 ≤ y) :
    vibWindowVal g W x y = ∑ j ∈ Finset.range 5, ∑ i ∈ Finset.range 5,
      cellContrib g W (x - 2 + i) (y - 2 + j) := by
  obtain ⟨a, rfl⟩ : ∃ a, x = a + 3 := ⟨x - 3, by omega⟩
  obtain ⟨b, rfl⟩ : ∃ b, y = b + 3 := ⟨y - 3, by omega⟩
  have h1 : a + 3 + 2 = a + 1 + 4 := by omega
  have h2 : a + 3 - 3 = a := by omega
  have h3 : b + 3 + 2 = b + 1 + 4 := by omega
  have h4 : b + 3 - 3 = b := by omega
  unfold vibWindowVal
  rw [h1, h2, h3, h4]
  have e1 : a + 1 + 4 + 1 = (a + 1) + 5 := by omega
  have e2 : b + 1 + 4 + 1 = (b + 1) + 5 := by omega
  have e3 : a + 1 = a + 1 := rfl
  rw [vib_eq_sum, vib_eq_sum, vib_eq_sum, vib_eq_sum, e1, e2]
  have := double_sum_window (cellContrib g W) (a + 1) (b + 1) 5 5
  have harg : ∀ i j : ℕ, a + 3 - 2 + i = a + 1 + i ∧
      b + 3 - 2 + j = b + 1 + j := by omega
  calc (∑ j ∈ Finset.range (b + 1 + 5),
          ∑ i ∈ Finset.range (a + 1 + 5), cellContrib g W i j) -
        (∑ j ∈ Finset.range (b + 1),
          ∑ i ∈ Finset.range (a + 1 + 5), cellContrib g W i j) -
        (∑ j ∈ Finset.range (b + 1 + 5),
          ∑ i ∈ Finset.range (a + 1), cellContrib g W i j) +
        (∑ j ∈ Finset.range (b + 1),
          ∑ i ∈ Finset.range (a + 1), cellContrib g W i j)
      = ∑ j ∈ Finset.range 5, ∑ i ∈ Finset.range 5,
          cellContrib g W (a + 1 + i) (b + 1 + j) := this
    _ = ∑ j ∈ Finset.range 5, ∑ i ∈ Finset.range 5,
          cellContrib g W (a + 3 - 2 + i) (b + 3 - 2 + j) := by
        refine Finset.sum_congr rfl (fun j _ => ?_)
        refine Finset.sum_congr rfl (fun i _ => ?_)
        rw [(harg i j).1, (harg i j).2]

/-- The core `Rat.floor` (used by the embedding for C's float-to-int
truncation of nonnegative values) agrees with Mathlib's floor. -/
theorem ratFloor_eq_intFloor (q : ℚ) : q.floor = ⌊q⌋ := by
  rw [Rat.floor_def', Rat.floor_def]

/-- The source's `if (a < b) r = a else r = b` assignment pattern computes
the minimum. -/
theorem if_lt_eq_min (a b : ℚ) : (if a < b then a else b) = min b a := by
  rcases le_or_lt b a with h | h
  · rw [if_neg (not_lt.mpr h), min_eq_left h]
  · rw [if_pos h, min_eq_right h.le]

/-- The source's saturation pattern `if (a > cap) a = cap` computes the
minimum with the cap. -/
theorem if_gt_eq_min (a b : ℚ) : (if a > b then b else a) = min a b := by
  rcases le_or_lt a b with h | h
  · rw [if_neg (not_lt.mpr h), min_eq_left h]
  · rw [if_pos h, min_eq_right h.le]

/-- The source's clamp-at-zero pattern `if (a < 0) a = 0` computes the
maximum with zero. -/
theorem if_lt_zero_eq_max (a : ℚ) : (if a < 0 then 0 else a) = max 0 a := by
  rcases le_or_lt 0 a with h | h
  · rw [if_neg (not_lt.mpr h), max_eq_right h]
  · rw [if_pos h, max_eq_left h.le]

/-- The source's floor-at-three pattern `if (a < 3) a = 3` computes the
maximum with three. -/
theorem if_lt_three_eq_max (a : ℚ) : (if a < 3 then 3 else a) = max 3 a := by
  rcases le_or_lt 3 a with h | h
  · rw [if_neg (not_lt.mpr h), max_eq_right h]
  · rw [if_pos h, max_eq_left h.le]

/-- Folding a function that fixes every state at indices other than `k`
does nothing over a list avoiding `k`. -/
theorem foldl_id_of_fixed {α : Type} (f : α → ℕ → α) (k : ℕ)
    (hf : ∀ st i, i ≠ k → f st i = st) :
    ∀ (l : List ℕ), k ∉ l → ∀ st, List.foldl f st l = st := by
  intro l
  induction l with
  | nil => intro _ st; rfl
  | cons b t ih =>
      intro hk st
      simp only [List.mem_cons, not_or] at hk
      rw [List.foldl_cons, hf st b (fun h => hk.1 h.symm),
        ih hk.2]

/-- Folding over `range n` a function that acts only at `k < n` is the
single action at `k`. -/
theorem foldl_range_single {α : Type} (f : α → ℕ → α) (k : ℕ)
    (hf : ∀ st i, i ≠ k → f st i = st) (n : ℕ) (hk : k < n) (st : α) :
    List.foldl f st (List.range n) = f st k := by
  induction n with
  | zero => omega
  | succ m ih =>
      rw [List.range_succ, List.foldl_append, List.foldl_cons,
        List.foldl_nil]
      by_cases hkm : k < m
      · rw [ih hkm, hf _ m (by omega)]
      · have hkeq : k = m := by omega
        have hbase : List.foldl f st (List.range m) = st := by
          apply foldl_id_of_fixed f k hf
          simp [List.mem_range]
          omega
        rw [hbase, hkeq]

/-- Case analysis on one propagation step: either the step drops the
source (destination buffer unchanged), or the projection lies strictly
inside the `(2.1, W-3.1) x (2.1, H-3.1)` rectangle and the step writes
exactly one cell, at the rounded destination index. -/
theorem propagateStep_eq_or_write (P : PropagationSetup) (S : Settings)
    (oth : Grid) (idx : ℕ) :
    propagateStep P S oth idx = oth ∨
    ((propagatedU P idx > 2.1 ∧ propagatedV P idx > 2.1 ∧
      propagatedU P idx < (P.W : ℚ) - 3.1 ∧
      propagatedV P idx < (P.H : ℚ) - 3.1) ∧
     ∃ h : DepthMapPixelHypothesis,
       propagateStep P S oth idx = oth.write (propagatedIDX P idx) h) := by
  simp only [propagateStep]
  split
  · exact Or.inl rfl
  split
  · exact Or.inl rfl
  next hrect =>
    have hr := not_not.mp hrect
    split
    · exact Or.inl rfl
    split
    · split
      · exact Or.inl rfl
      · exact Or.inr ⟨hr, _, rfl⟩
    split
    · exact Or.inr ⟨hr, _, rfl⟩
    · exact Or.inr ⟨hr, _, rfl⟩

/-- When the projection passes the rectangle check, the rounded
destination index decodes to coordinates at least 2 away from the left and
top borders and at least 3 away from the right and bottom borders. -/
theorem propagatedIDX_bounds (P : PropagationSetup) (idx : ℕ)
    (hrect : propagatedU P idx > 2.1 ∧ propagatedV P idx > 2.1 ∧
      propagatedU P idx < (P.W : ℚ) - 3.1 ∧
      propagatedV P idx < (P.H : ℚ) - 3.1) :
    2 ≤ propagatedIDX P idx % P.W ∧
      propagatedIDX P idx % P.W + 3 ≤ P.W ∧
      2 ≤ propagatedIDX P idx / P.W ∧
      propagatedIDX P idx / P.W + 3 ≤ P.H := by
  obtain ⟨hu1, hv1, hu2, hv2⟩ := hrect
  have hxlo : (2 : ℤ) ≤ ⌊propagatedU P idx + 0.5⌋ := by
    rw [Int.le_floor]
    push_cast
    norm_num at hu1 ⊢
    linarith
  have hxhi : ⌊propagatedU P idx + 0.5⌋ < (P.W : ℤ) - 2 := by
    rw [Int.floor_lt]
    push_cast
    norm_num at hu2 ⊢
    linarith
  have hylo : (2 : ℤ) ≤ ⌊propagatedV P idx + 0.5⌋ := by
    rw [Int.le_floor]
    push_cast
    norm_num at hv1 ⊢
    linarith
  have hyhi : ⌊propagatedV P idx + 0.5⌋ < (P.H : ℤ) - 2 := by
    rw [Int.floor_lt]
    push_cast
    norm_num at hv2 ⊢
    linarith
  have hxd : 2 ≤ (propagatedU P idx + 0.5).floor.toNat ∧
      (propagatedU P idx + 0.5).floor.toNat + 3 ≤ P.W := by
    rw [ratFloor_eq_intFloor]
    omega
  have hyd : 2 ≤ (propagatedV P idx + 0.5).floor.toNat ∧
      (propagatedV P idx + 0.5).floor.toNat + 3 ≤ P.H := by
    rw [ratFloor_eq_intFloor]
    omega
  have hWpos : 0 < P.W := by omega
  have hxlt : (propagatedU P idx + 0.5).floor.toNat < P.W := by omega
  unfold propagatedIDX
  rw [Nat.add_mul_mod_self_right, Nat.mod_eq_of_lt hxlt,
    Nat.add_mul_div_right _ _ hWpos, Nat.div_eq_of_lt hxlt]
  omega

end Helpers

/-- Claim C2 (amended): during propagation, a valid source cell whose
projected coordinates do not fall strictly inside the rectangle
`(2.1, W-3.1) x (2.1, H-3.1)` is dropped: nothing is written to any
destination cell for that source.  There is no separate `p.z ≤ 0` test in
the code: a warped point with `p.z < 0` whose projection falls strictly
inside the rectangle is processed and written (see the
counterexample). -/
theorem c2_out_of_rect_drops (P : PropagationSetup) (S : Settings)
    (oth : Grid) (idx : ℕ)
    (hrect : ¬ (propagatedU P idx > 2.1 ∧ propagatedV P idx > 2.1 ∧
      propagatedU P idx < (P.W : ℚ) - 3.1 ∧
      propagatedV P idx < (P.H : ℚ) - 3.1)) :
    propagateStep P S oth idx = oth := by
  rcases propagateStep_eq_or_write P S oth idx with h | ⟨hr, _⟩
  · exact h
  · exact absurd hr hrect



/-- Counterexample for C2 as frozen: the source cell of `c2Setup` has a
warped point with `p.z = -2 < 0`, yet the propagation step writes a (valid)
hypothesis into destination cell 14 instead of dropping the source. -/
theorem c2_counterexample :
    (warpedPoint c2Setup 14).z < 0 ∧
    (propagateStep c2Setup exSettings (propagateWipe baseGrid) 14 14).isValid
      = true := by
  have hW : (warpedPoint c2Setup 14) = ⟨-9/2, -9/2, -2⟩ := by
    norm_num [warpedPoint, c2Setup, Mat3.mulVec, Vec3.divScalar, Vec3.add]
  have hU : propagatedU c2Setup 14 = 9/4 := by
    rw [propagatedU, hW]
    norm_num [c2Setup]
  have hV : propagatedV c2Setup 14 = 9/4 := by
    rw [propagatedV, hW]
    norm_num [c2Setup]
  have hfl : ((9/4 : ℚ) + 0.5).floor = 2 := by
    rw [ratFloor_eq_intFloor, show ((9/4 : ℚ) + 0.5) = 11/4 by norm_num,
      Int.floor_eq_iff]
    norm_num
  have hIDX : propagatedIDX c2Setup 14 = 14 := by
    rw [propagatedIDX, hU, hV, hfl]
    decide
  refine ⟨by rw [hW]; norm_num, ?_⟩
  have hmag : ¬ ((2 : ℚ) < exSettings.MIN_ABS_GRAD_DECREASE) := by
    norm_num [exSettings]
  simp only [propagateStep, hU, hV, hIDX]
  norm_num [c2Setup, propagateWipe, baseGrid, invalidHyp,
    getInterpolatedElement, exSettings, Grid.write, mkHyp, hmag]


/-- Witness for C2 (amended): the source of `c2WitnessSetup` projects to
`(2, 2)`, which fails the rectangle test, and the step leaves the
destination buffer untouched. -/
theorem c2_out_of_rect_drops_witness :
    propagateStep c2WitnessSetup exSettings (propagateWipe baseGrid) 14 =
      propagateWipe baseGrid := by
  apply c2_out_of_rect_drops
  have hW : warpedPoint c2WitnessSetup 14 = ⟨2, 2, 1⟩ := by
    norm_num [warpedPoint, c2WitnessSetup, Mat3.mulVec, Vec3.divScalar,
      Vec3.add]
  have hU : propagatedU c2WitnessSetup 14 = 2 := by
    rw [propagatedU, hW]
    norm_num [c2WitnessSetup]
  rw [hU]
  intro hcon
  have := hcon.1
  norm_num at this


/-- Full evaluation of the propagation pass of `propSetupNeg`: the new
current map holds, at cell 21, a freshly installed valid hypothesis with
inverse depth `-1` (and variance `1`, validity 4). -/
theorem propSetupNegEval :
    (propagateDepth propSetupNeg exSettings baseGrid).1 21 =
      mkHyp (-1) 1 4 := by
  have hskip : ∀ (st : Grid) (i : ℕ), i ≠ 21 →
      propagateStep propSetupNeg exSettings st i = st := by
    intro st i hi
    have hv : (propSetupNeg.curr i).isValid = false := by
      simp [propSetupNeg, invalidHyp, hi]
    simp [propagateStep, hv]
  have hfold : (propagateDepth propSetupNeg exSettings baseGrid).1 =
      propagateStep propSetupNeg exSettings (propagateWipe baseGrid) 21 :=
    foldl_range_single _ 21 hskip (propSetupNeg.W * propSetupNeg.H)
      (by norm_num [propSetupNeg]) _
  have hW : warpedPoint propSetupNeg 21 = ⟨-5/2, -5/2, -1⟩ := by
    norm_num [warpedPoint, propSetupNeg, Mat3.mulVec, Vec3.divScalar,
      Vec3.add]
  have hU : propagatedU propSetupNeg 21 = 5/2 := by
    rw [propagatedU, hW]
    norm_num [propSetupNeg]
  have hV : propagatedV propSetupNeg 21 = 5/2 := by
    rw [propagatedV, hW]
    norm_num [propSetupNeg]
  have hfl : ((5/2 : ℚ) + 0.5).floor = 3 := by
    rw [ratFloor_eq_intFloor, show ((5/2 : ℚ) + 0.5) = 3 by norm_num]
    norm_num
  have hIDX : propagatedIDX propSetupNeg 21 = 21 := by
    rw [propagatedIDX, hU, hV, hfl]
    decide
  have hmag : ¬ ((2 : ℚ) < exSettings.MIN_ABS_GRAD_DECREASE) := by
    norm_num [exSettings]
  rw [hfold]
  simp only [propagateStep, hU, hV, hIDX, hW]
  norm_num [propSetupNeg, propagateWipe, baseGrid, invalidHyp,
    getInterpolatedElement, exSettings, Grid.write, mkHyp]

/-- Claim C1 (amended): observation keeps the positivity part of the
invariant: `observeDepthCreate` installs, from a successful stereo result
(`error ≥ 0`, `result_idepth ≥ 0`, `0 < result_var ≤ MAX_VAR`), a valid
cell with `idepth > 0` and `idepth_var > 0`; and the success branch of
`observeDepthUpdate` preserves `idepth > 0` and `idepth_var > 0`.  The
frozen claim fails at propagation — there is no `p.z` check, so a source
behind the camera can install a valid cell with negative `idepth` (see the
counterexample) — and no step enforces `idepth ≤ 1/MIN_DEPTH`. -/
theorem c1_observation_positivity (S : Settings) :
    (∀ (target : DepthMapPixelHypothesis) (error ridepth rvar : ℚ),
      0 ≤ error → 0 ≤ ridepth → 0 < rvar → ¬ rvar > S.MAX_VAR →
      (observeDepthCreatePost target error ridepth rvar S).1.isValid
          = true ∧
      0 < (observeDepthCreatePost target error ridepth rvar S).1.idepth ∧
      0 < (observeDepthCreatePost target error ridepth rvar
        S).1.idepth_var) ∧
    (∀ (target : DepthMapPixelHypothesis)
      (error ridepth rvar repl absGrad : ℚ) (refFrameId : ℤ)
      (tracked mapped : ℚ),
      error ≠ -5 → error ≠ -1 → error ≠ -2 → error ≠ -3 → error ≠ -4 →
      ¬ S.DIFF_FAC_OBSERVE * (ridepth - target.idepth_smoothed) *
        (ridepth - target.idepth_smoothed) >
        rvar + target.idepth_var_smoothed →
      0 < target.idepth → 0 < target.idepth_var → 0 ≤ ridepth →
      0 < rvar → 0 < S.SUCC_VAR_INC_FAC →
      0 < (observeDepthUpdatePost target error ridepth rvar repl absGrad
        refFrameId tracked mapped S).1.idepth ∧
      0 < (observeDepthUpdatePost target error ridepth rvar repl absGrad
        refFrameId tracked mapped S).1.idepth_var) := by
  constructor
  · intro target error ridepth rvar herr hri hrv hrmax
    have hno : ¬ (error = -3 ∨ error = -2) := by
      rintro (h | h) <;> rw [h] at herr <;> norm_num at herr
    have hor : ¬ (error < 0 ∨ rvar > S.MAX_VAR) := by
      rintro (h | h)
      · linarith
      · exact hrmax h
    unfold observeDepthCreatePost
    rw [if_neg hno, if_neg hor]
    exact ⟨rfl, UNZERO_pos_of_nonneg hri, hrv⟩
  · intro target error ridepth rvar repl absGrad refFrameId tracked mapped
      h5 h1 h2 h3 h4 hcons hti htv hri hrv hsucc
    unfold observeDepthUpdatePost
    simp only [if_neg h5, if_neg h1, if_neg h2, if_neg h3, if_neg h4,
      if_neg hcons]
    have hd : 0 < rvar + target.idepth_var * S.SUCC_VAR_INC_FAC := by
      have := mul_pos htv hsucc
      linarith
    have hw : 0 < rvar / (rvar + target.idepth_var * S.SUCC_VAR_INC_FAC) :=
      div_pos hrv hd
    have hw1 : rvar / (rvar + target.idepth_var * S.SUCC_VAR_INC_FAC) < 1 := by
      rw [div_lt_one hd]
      have := mul_pos htv hsucc
      linarith
    constructor
    · apply UNZERO_pos_of_nonneg
      have hterm1 : 0 ≤ (1 - rvar /
          (rvar + target.idepth_var * S.SUCC_VAR_INC_FAC)) * ridepth :=
        mul_nonneg (by linarith) hri
      have hterm2 : 0 < rvar /
          (rvar + target.idepth_var * S.SUCC_VAR_INC_FAC) * target.idepth :=
        mul_pos hw hti
      linarith
    · show 0 < (if target.idepth_var * S.SUCC_VAR_INC_FAC *
          (rvar / (rvar + target.idepth_var * S.SUCC_VAR_INC_FAC)) <
          target.idepth_var then _ else _)
      split
      · exact mul_pos (mul_pos htv hsucc) hw
      · exact htv

/-- Counterexample for C1 as frozen: after propagation of `propSetupNeg`,
cell 21 of the new current map is valid with `idepth = -1 < 0`, violating
the claimed invariant `valid ⇒ idepth > 0`. -/
theorem c1_counterexample :
    ((propagateDepth propSetupNeg exSettings baseGrid).1 21).isValid
        = true ∧
    ((propagateDepth propSetupNeg exSettings baseGrid).1 21).idepth < 0 := by
  rw [propSetupNegEval]
  exact ⟨rfl, by norm_num [mkHyp]⟩

/-- Witness for C1 (amended): a concrete successful creation installs a
valid cell with positive inverse depth. -/
theorem c1_observation_positivity_witness :
    (observeDepthCreatePost invalidHyp 0 1 (1/8) exSettings).1.isValid
        = true ∧
    0 < (observeDepthCreatePost invalidHyp 0 1 (1/8) exSettings).1.idepth :=
  have h := (c1_observation_positivity exSettings).1 invalidHyp 0 1 (1/8)
    (by norm_num) (by norm_num) (by norm_num) (by norm_num [exSettings])
  ⟨h.1, h.2.1⟩

/-- Claim C7 (amended): propagation never marks a pixel valid outside
`[2, W-3] x [2, H-3]`: every valid cell of the propagated map has
`2 ≤ x`, `x + 3 ≤ W`, `2 ≤ y` and `y + 3 ≤ H`.  The frozen width-3 border
claim fails: the counterexample-free bound is width 2 on the left and top
(propagation can round a projection at `u ∈ (2.1, 2.5)` down to column 2),
and fill-holes can write column `W-3` and row `H-3`, both inside the
bound proved here. -/
theorem c7_propagation_border (P : PropagationSetup) (S : Settings)
    (oth : Grid) :
    ∀ i, ((propagateDepth P S oth).1 i).isValid = true →
      2 ≤ i % P.W ∧ i % P.W + 3 ≤ P.W ∧ 2 ≤ i / P.W ∧ i / P.W + 3 ≤ P.H := by
  have hinit : ∀ i, ((propagateWipe oth) i).isValid = true →
      2 ≤ i % P.W ∧ i % P.W + 3 ≤ P.W ∧ 2 ≤ i / P.W ∧
        i / P.W + 3 ≤ P.H := by
    intro i hi
    exact absurd hi (by simp [propagateWipe])
  exact foldl_invariant (propagateStep P S)
    (fun st => ∀ i, (st i).isValid = true →
      2 ≤ i % P.W ∧ i % P.W + 3 ≤ P.W ∧ 2 ≤ i / P.W ∧ i / P.W + 3 ≤ P.H)
    (fun st idx hst => by
      rcases propagateStep_eq_or_write P S st idx with he | ⟨hr, h, he⟩
      · rw [he]
        exact hst
      · rw [he]
        intro i hi
        by_cases hieq : i = propagatedIDX P idx
        · subst hieq
          exact propagatedIDX_bounds P idx hr
        · simp only [Grid.write] at hi
          rw [if_neg hieq] at hi
          exact hst i hi)
    (List.range (P.W * P.H)) (propagateWipe oth) hinit

/-- Witness for C7 (amended): the valid cell 21 produced by the
`propSetupNeg` propagation decodes to `(3, 3)`, inside the proved
bounds. -/
theorem c7_propagation_border_witness :
    2 ≤ 21 % propSetupNeg.W ∧ 21 % propSetupNeg.W + 3 ≤ propSetupNeg.W ∧
    2 ≤ 21 / propSetupNeg.W ∧ 21 / propSetupNeg.W + 3 ≤ propSetupNeg.H :=
  c7_propagation_border propSetupNeg exSettings baseGrid 21
    (by rw [propSetupNegEval]; rfl)


/-- Counterexample for C7 as frozen: propagation of `c7Setup` marks the
border pixel `(2, 2)` (flat index 14, column `2 < 3`) valid. -/
theorem c7_counterexample :
    ((propagateDepth c7Setup exSettings baseGrid).1 14).isValid = true ∧
    14 % c7Setup.W < 3 := by
  have hskip : ∀ (st : Grid) (i : ℕ), i ≠ 21 →
      propagateStep c7Setup exSettings st i = st := by
    intro st i hi
    have hv : (c7Setup.curr i).isValid = false := by
      simp [c7Setup, invalidHyp, hi]
    simp [propagateStep, hv]
  have hfold : (propagateDepth c7Setup exSettings baseGrid).1 =
      propagateStep c7Setup exSettings (propagateWipe baseGrid) 21 :=
    foldl_range_single _ 21 hskip (c7Setup.W * c7Setup.H)
      (by norm_num [c7Setup]) _
  have hW : warpedPoint c7Setup 21 = ⟨11/5, 11/5, 1⟩ := by
    norm_num [warpedPoint, c7Setup, Mat3.mulVec, Vec3.divScalar, Vec3.add]
  have hU : propagatedU c7Setup 21 = 11/5 := by
    rw [propagatedU, hW]
    norm_num [c7Setup]
  have hV : propagatedV c7Setup 21 = 11/5 := by
    rw [propagatedV, hW]
    norm_num [c7Setup]
  have hfl : ((11/5 : ℚ) + 0.5).floor = 2 := by
    rw [ratFloor_eq_intFloor, show ((11/5 : ℚ) + 0.5) = 27/10 by norm_num,
      Int.floor_eq_iff]
    norm_num
  have hIDX : propagatedIDX c7Setup 21 = 14 := by
    rw [propagatedIDX, hU, hV, hfl]
    decide
  refine ⟨?_, by decide⟩
  rw [hfold]
  simp only [propagateStep, hU, hV, hIDX, hW]
  norm_num [c7Setup, propagateWipe, baseGrid, invalidHyp,
    getInterpolatedElement, exSettings, Grid.write, mkHyp]

/-- Claim C8: in the depth-extraction tail of `doLineStereo`, a negative
selected inverse depth `id_new` yields the status code `-2` when negative
inverse depths are not enabled; when they are enabled, a negative `id_new`
does not by itself cause rejection — the tail always returns the
successful match error. -/
theorem c8_negative_idepth_rejected (T : StereoTailSetup) (S : Settings) :
    (stereoSelectedIdNew T < 0 → S.allowNegativeIdepths = false →
      doLineStereoTail T S = .errCode (-2)) ∧
    (S.allowNegativeIdepths = true →
      ∃ e i v, doLineStereoTail T S = .ok e i v T.eplLength) := by
  constructor
  · intro hneg hallow
    unfold doLineStereoTail
    rw [if_pos ⟨hneg, by simp [hallow]⟩]
  · intro hallow
    unfold doLineStereoTail
    rw [if_neg (by simp [hallow])]
    exact ⟨_, _, _, rfl⟩


/-- Witness for C8: with negatives disabled the tail rejects `c8Setup`
with `-2`; with negatives enabled it succeeds. -/
theorem c8_negative_idepth_rejected_witness :
    doLineStereoTail c8Setup exSettings = .errCode (-2) ∧
    ∃ e i v, doLineStereoTail c8Setup
      { exSettings with allowNegativeIdepths := true } =
      .ok e i v c8Setup.eplLength := by
  have hneg : stereoSelectedIdNew c8Setup < 0 := by
    norm_num [stereoSelectedIdNew, c8Setup, Mat3.mulVec]
  exact ⟨(c8_negative_idepth_rejected c8Setup exSettings).1 hneg rfl,
    (c8_negative_idepth_rejected c8Setup
      { exSettings with allowNegativeIdepths := true }).2 rfl⟩

/-- Claim C6: in fill-holes, for an invalid interior cell whose keyframe
max-gradient is at least `MIN_ABS_GRAD_DECREASE`, a new hypothesis is
created exactly when the direct 5x5 validity-window sum exceeds
`VAL_SUM_MIN_FOR_CREATE` for non-blacklisted cells
(`blacklisted ≥ MIN_BLACKLIST`) or exceeds
`VAL_SUM_MIN_FOR_UNBLACKLIST` otherwise (using
`VAL_SUM_MIN_FOR_CREATE ≤ VAL_SUM_MIN_FOR_UNBLACKLIST`, true of the
shipped constants), and the created hypothesis has `idepth` equal to the
variance-weighted average `Σ(id/var)/Σ(1/var)` over the valid 5x5
neighbors, variance `VAR_RANDOM_INIT_INITIAL` and validity counter 0.
The neighbor hypotheses (positive variances, inverse depths at least the
UNZERO threshold, at least one valid neighbor) make the source's UNZERO
clamp of the average the identity. -/
theorem c6_fill_holes (g : Grid) (grad : ℕ → ℚ) (S : Settings)
    (W H x y : ℕ)
    (hx3 : 3 ≤ x) (hxW : x + 3 ≤ W) (hy3 : 3 ≤ y) (hyH : y + 3 ≤ H)
    (hinv : (g (x + y * W)).isValid = false)
    (hgrad : ¬ grad (x + y * W) < S.MIN_ABS_GRAD_DECREASE)
    (hcu : S.VAL_SUM_MIN_FOR_CREATE ≤ S.VAL_SUM_MIN_FOR_UNBLACKLIST)
    (hnb : ∀ i ∈ Finset.range 5, ∀ j ∈ Finset.range 5,
      (g ((x - 2 + i) + (y - 2 + j) * W)).isValid = true →
      0 < (g ((x - 2 + i) + (y - 2 + j) * W)).idepth_var ∧
      UNZERO_EPS ≤ (g ((x - 2 + i) + (y - 2 + j) * W)).idepth)
    (hex : ∃ i ∈ Finset.range 5, ∃ j ∈ Finset.range 5,
      (g ((x - 2 + i) + (y - 2 + j) * W)).isValid = true) :
    ((regularizeDepthMapFillHoles g grad S W H (x + y * W)).isValid = true ↔
      (((g (x + y * W)).blacklisted ≥ S.MIN_BLACKLIST ∧
        (∑ j ∈ Finset.range 5, ∑ i ∈ Finset.range 5,
          cellContrib g W (x - 2 + i) (y - 2 + j)) >
          S.VAL_SUM_MIN_FOR_CREATE) ∨
       ((g (x + y * W)).blacklisted < S.MIN_BLACKLIST ∧
        (∑ j ∈ Finset.range 5, ∑ i ∈ Finset.range 5,
          cellContrib g W (x - 2 + i) (y - 2 + j)) >
          S.VAL_SUM_MIN_FOR_UNBLACKLIST))) ∧
    ((((g (x + y * W)).blacklisted ≥ S.MIN_BLACKLIST ∧
        (∑ j ∈ Finset.range 5, ∑ i ∈ Finset.range 5,
          cellContrib g W (x - 2 + i) (y - 2 + j)) >
          S.VAL_SUM_MIN_FOR_CREATE) ∨
      ((g (x + y * W)).blacklisted < S.MIN_BLACKLIST ∧
        (∑ j ∈ Finset.range 5, ∑ i ∈ Finset.range 5,
          cellContrib g W (x - 2 + i) (y - 2 + j)) >
          S.VAL_SUM_MIN_FOR_UNBLACKLIST)) →
      (regularizeDepthMapFillHoles g grad S W H (x + y * W)).idepth =
        fillHolesSumIdepthObs g W x y / fillHolesSumIVarObs g W x y ∧
      (regularizeDepthMapFillHoles g grad S W H
        (x + y * W)).idepth_var = S.VAR_RANDOM_INIT_INITIAL ∧
      (regularizeDepthMapFillHoles g grad S W H
        (x + y * W)).validity_counter = 0) := by
  have hW0 : 0 < W := by omega
  have hxW' : x < W := by omega
  have hxmod : (x + y * W) % W = x := by
    rw [Nat.add_mul_mod_self_right, Nat.mod_eq_of_lt hxW']
  have hydiv : (x + y * W) / W = y := by
    rw [Nat.add_mul_div_right _ _ hW0, Nat.div_eq_of_lt hxW',
      Nat.zero_add]
  have hout : regularizeDepthMapFillHoles g grad S W H (x + y * W) =
      fillHolesCell g g grad S W x y := by
    unfold regularizeDepthMapFillHoles
    rw [hxmod, hydiv, if_pos ⟨hy3, by omega, hx3, by omega⟩]
  have hval := vibWindow_eq_block_sum g W x y hx3 hy3
  have hcell : fillHolesCell g g grad S W x y =
      (if ((g (x + y * W)).blacklisted ≥ S.MIN_BLACKLIST ∧
          vibWindowVal g W x y > S.VAL_SUM_MIN_FOR_CREATE) ∨
          vibWindowVal g W x y > S.VAL_SUM_MIN_FOR_UNBLACKLIST then
        mkHyp (UNZERO (fillHolesSumIdepthObs g W x y /
          fillHolesSumIVarObs g W x y)) S.VAR_RANDOM_INIT_INITIAL 0
      else g (x + y * W)) := by
    unfold fillHolesCell
    rw [if_neg (by rw [hinv]; exact Bool.false_ne_true), if_neg hgrad]
  have hcond_iff : (((g (x + y * W)).blacklisted ≥ S.MIN_BLACKLIST ∧
      vibWindowVal g W x y > S.VAL_SUM_MIN_FOR_CREATE) ∨
      vibWindowVal g W x y > S.VAL_SUM_MIN_FOR_UNBLACKLIST) ↔
      (((g (x + y * W)).blacklisted ≥ S.MIN_BLACKLIST ∧
        (∑ j ∈ Finset.range 5, ∑ i ∈ Finset.range 5,
          cellContrib g W (x - 2 + i) (y - 2 + j)) >
          S.VAL_SUM_MIN_FOR_CREATE) ∨
       ((g (x + y * W)).blacklisted < S.MIN_BLACKLIST ∧
        (∑ j ∈ Finset.range 5, ∑ i ∈ Finset.range 5,
          cellContrib g W (x - 2 + i) (y - 2 + j)) >
          S.VAL_SUM_MIN_FOR_UNBLACKLIST)) := by
    rw [← hval]
    constructor
    · rintro (⟨hb, hc⟩ | hu)
      · exact Or.inl ⟨hb, hc⟩
      · by_cases hb : (g (x + y * W)).blacklisted ≥ S.MIN_BLACKLIST
        · exact Or.inl ⟨hb, by linarith⟩
        · exact Or.inr ⟨by omega, hu⟩
    · rintro (⟨hb, hc⟩ | ⟨hb, hu⟩)
      · exact Or.inl ⟨hb, hc⟩
      · exact Or.inr hu
  have hsumIVar_pos : 0 < fillHolesSumIVarObs g W x y := by
    obtain ⟨i0, hi0, j0, hj0, hv0⟩ := hex
    unfold fillHolesSumIVarObs
    apply Finset.sum_pos'
    · intro j hj
      apply Finset.sum_nonneg
      intro i hi
      by_cases hv : (g ((x - 2 + i) + (y - 2 + j) * W)).isValid
      · simp only [hv, if_true]
        exact le_of_lt (one_div_pos.mpr (hnb i hi j hj hv).1)
      · simp [hv]
    · refine ⟨j0, hj0, Finset.sum_pos' ?_ ⟨i0, hi0, ?_⟩⟩
      · intro i hi
        by_cases hv : (g ((x - 2 + i) + (y - 2 + j0) * W)).isValid
        · simp only [hv, if_true]
          exact le_of_lt (one_div_pos.mpr (hnb i hi j0 hj0 hv).1)
        · simp [hv]
      · simp only [hv0, if_true]
        exact one_div_pos.mpr (hnb i0 hi0 j0 hj0 hv0).1
  have havg_ge : UNZERO_EPS ≤ fillHolesSumIdepthObs g W x y /
      fillHolesSumIVarObs g W x y := by
    rw [le_div_iff₀ hsumIVar_pos]
    unfold fillHolesSumIdepthObs fillHolesSumIVarObs
    rw [Finset.mul_sum]
    apply Finset.sum_le_sum
    intro j hj
    rw [Finset.mul_sum]
    apply Finset.sum_le_sum
    intro i hi
    by_cases hv : (g ((x - 2 + i) + (y - 2 + j) * W)).isValid
    · have h1 := (hnb i hi j hj hv).1
      have h2 := (hnb i hi j hj hv).2
      simp only [hv, if_true]
      rw [mul_one_div]
      exact (div_le_div_iff_of_pos_right h1).mpr h2
    · simp [hv]
  constructor
  · rw [hout, hcell]
    by_cases hc : ((g (x + y * W)).blacklisted ≥ S.MIN_BLACKLIST ∧
        vibWindowVal g W x y > S.VAL_SUM_MIN_FOR_CREATE) ∨
        vibWindowVal g W x y > S.VAL_SUM_MIN_FOR_UNBLACKLIST
    · rw [if_pos hc]
      exact iff_of_true rfl (hcond_iff.mp hc)
    · rw [if_neg hc]
      exact iff_of_false (by rw [hinv]; exact Bool.false_ne_true)
        (fun h => hc (hcond_iff.mpr h))
  · intro hclaim
    rw [hout, hcell, if_pos (hcond_iff.mpr hclaim)]
    refine ⟨?_, rfl, rfl⟩
    show UNZERO _ = _
    exact UNZERO_eq_self havg_ge


/-- Witness for C6: fill-holes creates a hypothesis at cell `(3, 3)` of
`c6Grid` (window validity sum 480 exceeds the creation threshold), with
the variance-weighted average inverse depth. -/
theorem c6_fill_holes_witness :
    (regularizeDepthMapFillHoles c6Grid (fun _ => 2) exSettings 8 8
      27).isValid = true ∧
    (regularizeDepthMapFillHoles c6Grid (fun _ => 2) exSettings 8 8
      27).idepth =
      fillHolesSumIdepthObs c6Grid 8 3 3 / fillHolesSumIVarObs c6Grid 8 3 3
      := by
  have hsum : (∑ j ∈ Finset.range 5, ∑ i ∈ Finset.range 5,
      cellContrib c6Grid 8 (3 - 2 + i) (3 - 2 + j)) = 480 := by
    simp [Finset.sum_range_succ, Finset.sum_range_zero, cellContrib,
      c6Grid, invalidHyp]
    norm_num
  have h := c6_fill_holes c6Grid (fun _ => 2) exSettings 8 8 3 3
    (by norm_num) (by norm_num) (by norm_num) (by norm_num)
    (by simp [c6Grid, invalidHyp])
    (by norm_num [exSettings])
    (by norm_num [exSettings])
    (by
      intro i hi j hj hv
      by_cases hc : (3 - 2 + i) + (3 - 2 + j) * 8 = 27
      · rw [hc] at hv
        simp [c6Grid, invalidHyp] at hv
      · norm_num [c6Grid, hc, UNZERO_EPS])
    ⟨0, by norm_num, 0, by norm_num, by simp [c6Grid]⟩
  have hclaim : ((c6Grid (3 + 3 * 8)).blacklisted ≥
      exSettings.MIN_BLACKLIST ∧
      (∑ j ∈ Finset.range 5, ∑ i ∈ Finset.range 5,
        cellContrib c6Grid 8 (3 - 2 + i) (3 - 2 + j)) >
        exSettings.VAL_SUM_MIN_FOR_CREATE) ∨
      ((c6Grid (3 + 3 * 8)).blacklisted < exSettings.MIN_BLACKLIST ∧
      (∑ j ∈ Finset.range 5, ∑ i ∈ Finset.range 5,
        cellContrib c6Grid 8 (3 - 2 + i) (3 - 2 + j)) >
        exSettings.VAL_SUM_MIN_FOR_UNBLACKLIST) :=
    Or.inl ⟨by norm_num [c6Grid, invalidHyp, exSettings],
      by rw [hsum]; norm_num [exSettings]⟩
  exact ⟨h.1.mpr hclaim, (h.2 hclaim).1⟩

/-- Claim C10: after `buildRegIntegralBuffer`, for every interior pixel
`(x, y)` the expression `I(x+2,y+2) - I(x-3,y+2) - I(x+2,y-3) + I(x-3,y-3)`
over the integral buffer equals the direct sum of `validity_counter` over
the valid cells of the 5x5 window centered at `(x, y)`. -/
theorem c10_integral_window (g : Grid) (W H x y : ℕ)
    (hx3 : 3 ≤ x) (_hxW : x + 3 ≤ W) (hy3 : 3 ≤ y) (_hyH : y + 3 ≤ H) :
    vib g W (x + 2) (y + 2) - vib g W (x - 3) (y + 2) -
      vib g W (x + 2) (y - 3) + vib g W (x - 3) (y - 3) =
    ∑ j ∈ Finset.range 5, ∑ i ∈ Finset.range 5,
      cellContrib g W (x - 2 + i) (y - 2 + j) := by
  have h := vibWindow_eq_block_sum g W x y hx3 hy3
  unfold vibWindowVal at h
  linarith [h]


/-- Witness for C10 at the interior pixel `(3, 3)` of an 8x8 grid. -/
theorem c10_integral_window_witness :
    (3 ≤ (3 : ℕ) ∧ 3 + 3 ≤ (8 : ℕ)) ∧
    (vib c10Grid 8 5 5 - vib c10Grid 8 0 5 -
        vib c10Grid 8 5 0 + vib c10Grid 8 0 0 =
      ∑ j ∈ Finset.range 5, ∑ i ∈ Finset.range 5,
        cellContrib c10Grid 8 (1 + i) (1 + j)) :=
  ⟨by decide,
    c10_integral_window c10Grid 8 8 3 3 (by decide) (by decide)
      (by decide) (by decide)⟩

/-- Claim C9: the rescale epilogue of `createKeyFrame` multiplies `idepth`
and `idepth_smoothed` of every valid cell by `s = n/Σ idepth_smoothed` and
both variances by `s²`, after which the mean of `idepth_smoothed` over the
valid cells is exactly 1 (exact over the rationals; the source claims it
up to floating-point tolerance). -/
theorem c9_rescale_mean_one (g : Grid) (n : ℕ)
    (hsum : rescaleSumIdepth g n ≠ 0) (hnum : rescaleNumIdepth g n ≠ 0) :
    rescaleSumIdepth (createKeyFrameRescale g n) n /
      rescaleNumIdepth (createKeyFrameRescale g n) n = 1 ∧
    ∀ i, i < n → (g i).isValid →
      (createKeyFrameRescale g n i).idepth =
        (g i).idepth * (rescaleNumIdepth g n / rescaleSumIdepth g n) ∧
      (createKeyFrameRescale g n i).idepth_smoothed =
        (g i).idepth_smoothed *
          (rescaleNumIdepth g n / rescaleSumIdepth g n) ∧
      (createKeyFrameRescale g n i).idepth_var =
        (g i).idepth_var * ((rescaleNumIdepth g n / rescaleSumIdepth g n) *
          (rescaleNumIdepth g n / rescaleSumIdepth g n)) ∧
      (createKeyFrameRescale g n i).idepth_var_smoothed =
        (g i).idepth_var_smoothed *
          ((rescaleNumIdepth g n / rescaleSumIdepth g n) *
            (rescaleNumIdepth g n / rescaleSumIdepth g n)) := by
  have hvalid : ∀ i, (createKeyFrameRescale g n i).isValid = (g i).isValid := by
    intro i
    unfold createKeyFrameRescale
    by_cases h : i < n ∧ (g i).isValid
    · rw [if_pos h]
    · rw [if_neg h]
  have hnumNew : rescaleNumIdepth (createKeyFrameRescale g n) n =
      rescaleNumIdepth g n := by
    unfold rescaleNumIdepth
    exact Finset.sum_congr rfl (fun i _ => by rw [hvalid])
  have hcell : ∀ i, i < n → (g i).isValid →
      createKeyFrameRescale g n i =
      { g i with
          idepth := (g i).idepth *
            (rescaleNumIdepth g n / rescaleSumIdepth g n)
          idepth_smoothed := (g i).idepth_smoothed *
            (rescaleNumIdepth g n / rescaleSumIdepth g n)
          idepth_var := (g i).idepth_var *
            ((rescaleNumIdepth g n / rescaleSumIdepth g n) *
              (rescaleNumIdepth g n / rescaleSumIdepth g n))
          idepth_var_smoothed := (g i).idepth_var_smoothed *
            ((rescaleNumIdepth g n / rescaleSumIdepth g n) *
              (rescaleNumIdepth g n / rescaleSumIdepth g n)) } := by
    intro i hi hv
    unfold createKeyFrameRescale
    rw [if_pos ⟨hi, hv⟩]
  have hterm : ∀ i ∈ Finset.range n,
      (if (createKeyFrameRescale g n i).isValid then
        (createKeyFrameRescale g n i).idepth_smoothed else 0) =
      (if (g i).isValid then (g i).idepth_smoothed else 0) *
        (rescaleNumIdepth g n / rescaleSumIdepth g n) := by
    intro i hi
    have hi' := Finset.mem_range.mp hi
    by_cases hv : (g i).isValid
    · have h1 : (createKeyFrameRescale g n i).isValid = true := by
        rw [hvalid]
        exact hv
      have h2 : (createKeyFrameRescale g n i).idepth_smoothed =
          (g i).idepth_smoothed *
            (rescaleNumIdepth g n / rescaleSumIdepth g n) := by
        rw [hcell i hi' hv]
      rw [h1, h2, if_pos rfl, if_pos hv]
    · have h0 : createKeyFrameRescale g n i = g i := by
        unfold createKeyFrameRescale
        rw [if_neg (by tauto)]
      rw [h0, if_neg hv, zero_mul]
  have hsumNew : rescaleSumIdepth (createKeyFrameRescale g n) n =
      rescaleSumIdepth g n *
        (rescaleNumIdepth g n / rescaleSumIdepth g n) := by
    calc rescaleSumIdepth (createKeyFrameRescale g n) n
        = ∑ i ∈ Finset.range n,
            (if (g i).isValid then (g i).idepth_smoothed else 0) *
              (rescaleNumIdepth g n / rescaleSumIdepth g n) :=
          Finset.sum_congr rfl hterm
      _ = rescaleSumIdepth g n *
            (rescaleNumIdepth g n / rescaleSumIdepth g n) :=
          (Finset.sum_mul _ _ _).symm
  constructor
  · rw [hsumNew, hnumNew]
    field_simp
  · intro i hi hv
    rw [hcell i hi hv]
    exact ⟨rfl, rfl, rfl, rfl⟩


/-- Witness for C9 on the two-cell grid: the rescale factor is `1/4` and
the post-rescale mean is 1. -/
theorem c9_rescale_mean_one_witness :
    (rescaleSumIdepth c9Grid 2 ≠ 0 ∧ rescaleNumIdepth c9Grid 2 ≠ 0) ∧
    rescaleSumIdepth (createKeyFrameRescale c9Grid 2) 2 /
      rescaleNumIdepth (createKeyFrameRescale c9Grid 2) 2 = 1 :=
  have hs : rescaleSumIdepth c9Grid 2 ≠ 0 := by
    unfold rescaleSumIdepth
    rw [Finset.sum_range_succ, Finset.sum_range_succ, Finset.sum_range_zero]
    norm_num [c9Grid, invalidHyp]
  have hn : rescaleNumIdepth c9Grid 2 ≠ 0 := by
    unfold rescaleNumIdepth
    rw [Finset.sum_range_succ, Finset.sum_range_succ, Finset.sum_range_zero]
    norm_num [c9Grid, invalidHyp]
  ⟨⟨hs, hn⟩, (c9_rescale_mean_one c9Grid 2 hs hn).1⟩

/-- Claim C3: on a successful stereo observation of an existing hypothesis
(`error` is none of the failure codes and the result is consistent), the
cell is updated exactly by the prediction-inflated Kalman step: with
`var' = idepth_var * SUCC_VAR_INC_FAC` and `w = result_var /
(result_var + var')`, the new `idepth` is `UNZERO((1-w)*result_idepth +
w*idepth)`, the new `idepth_var` is `min(idepth_var, w*var')`, and the
validity counter is increased by `VALIDITY_COUNTER_INC` and saturated at
`VALIDITY_COUNTER_MAX + absGrad*VALIDITY_COUNTER_MAX_VARIABLE/255`;
validity status is unchanged and the update reports success. -/
theorem c3_success_update (target : DepthMapPixelHypothesis)
    (error result_idepth result_var result_eplLength absGrad : ℚ)
    (refFrameId : ℤ) (numFramesTracked numMapped : ℚ) (S : Settings)
    (h5 : error ≠ -5) (h1 : error ≠ -1) (h2 : error ≠ -2)
    (h3 : error ≠ -3) (h4 : error ≠ -4)
    (hcons : ¬ S.DIFF_FAC_OBSERVE *
      (result_idepth - target.idepth_smoothed) *
      (result_idepth - target.idepth_smoothed) >
      result_var + target.idepth_var_smoothed) :
    (observeDepthUpdatePost target error result_idepth result_var
      result_eplLength absGrad refFrameId numFramesTracked numMapped
      S).2 = true ∧
    (observeDepthUpdatePost target error result_idepth result_var
      result_eplLength absGrad refFrameId numFramesTracked numMapped
      S).1.idepth =
      UNZERO ((1 - result_var / (result_var +
          target.idepth_var * S.SUCC_VAR_INC_FAC)) * result_idepth +
        result_var / (result_var +
          target.idepth_var * S.SUCC_VAR_INC_FAC) * target.idepth) ∧
    (observeDepthUpdatePost target error result_idepth result_var
      result_eplLength absGrad refFrameId numFramesTracked numMapped
      S).1.idepth_var =
      min target.idepth_var
        (result_var / (result_var + target.idepth_var *
          S.SUCC_VAR_INC_FAC) * (target.idepth_var *
          S.SUCC_VAR_INC_FAC)) ∧
    (observeDepthUpdatePost target error result_idepth result_var
      result_eplLength absGrad refFrameId numFramesTracked numMapped
      S).1.validity_counter =
      min (target.validity_counter + S.VALIDITY_COUNTER_INC)
        (S.VALIDITY_COUNTER_MAX +
          absGrad * S.VALIDITY_COUNTER_MAX_VARIABLE / 255) ∧
    (observeDepthUpdatePost target error result_idepth result_var
      result_eplLength absGrad refFrameId numFramesTracked numMapped
      S).1.isValid = target.isValid := by
  unfold observeDepthUpdatePost
  simp only [if_neg h5, if_neg h1, if_neg h2, if_neg h3, if_neg h4,
    if_neg hcons]
  refine ⟨trivial, trivial, ?_, ?_, trivial⟩
  · show (if target.idepth_var * S.SUCC_VAR_INC_FAC *
        (result_var / (result_var +
          target.idepth_var * S.SUCC_VAR_INC_FAC)) <
        target.idepth_var then _ else _) = _
    rw [if_lt_eq_min]
    rw [mul_comm (target.idepth_var * S.SUCC_VAR_INC_FAC)
      (result_var / (result_var + target.idepth_var * S.SUCC_VAR_INC_FAC))]
  · show (if target.validity_counter + S.VALIDITY_COUNTER_INC >
        S.VALIDITY_COUNTER_MAX +
          absGrad * S.VALIDITY_COUNTER_MAX_VARIABLE / 255
        then _ else _) = _
    rw [if_gt_eq_min]

/-- Witness for C3: a concrete successful observation with `error = 0`,
`result_idepth = result_var = 1` on a unit cell. -/
theorem c3_success_update_witness :
    ((0 : ℚ) ≠ -5) ∧
    ((observeDepthUpdatePost ⟨true, 1, 1, 1, 1, 0, 0, 0⟩ 0 1 1 100 0 0 0 0
      exSettings).2 = true ∧
    (observeDepthUpdatePost ⟨true, 1, 1, 1, 1, 0, 0, 0⟩ 0 1 1 100 0 0 0 0
      exSettings).1.idepth =
      UNZERO ((1 - 1 / (1 + (1 : ℚ) * exSettings.SUCC_VAR_INC_FAC)) * 1 +
        1 / (1 + (1 : ℚ) * exSettings.SUCC_VAR_INC_FAC) * 1)) :=
  have h := c3_success_update ⟨true, 1, 1, 1, 1, 0, 0, 0⟩ 0 1 1 100 0 0 0 0
    exSettings (by norm_num) (by norm_num) (by norm_num) (by norm_num)
    (by norm_num) (by norm_num [exSettings])
  ⟨by norm_num, h.1, h.2.1⟩

/-- Claim C4 (amended): on stereo result code `-2`, `observeDepthUpdate`
decrements the validity counter by `VALIDITY_COUNTER_DEC` clamped at 0,
resets `nextStereoFrameMinID` to 0, multiplies `idepth_var` by
`FAIL_VAR_INC_FAC`, and exactly when the inflated variance exceeds
`MAX_VAR` it both invalidates the cell and decrements `blacklisted`; when
the inflated variance does not exceed `MAX_VAR`, `blacklisted` and the
validity flag are unchanged. -/
theorem c4_error2_branch (target : DepthMapPixelHypothesis)
    (result_idepth result_var result_eplLength absGrad : ℚ)
    (refFrameId : ℤ) (numFramesTracked numMapped : ℚ) (S : Settings) :
    (observeDepthUpdatePost target (-2) result_idepth result_var
      result_eplLength absGrad refFrameId numFramesTracked numMapped
      S).2 = false ∧
    (observeDepthUpdatePost target (-2) result_idepth result_var
      result_eplLength absGrad refFrameId numFramesTracked numMapped
      S).1.validity_counter =
      max 0 (target.validity_counter - S.VALIDITY_COUNTER_DEC) ∧
    (observeDepthUpdatePost target (-2) result_idepth result_var
      result_eplLength absGrad refFrameId numFramesTracked numMapped
      S).1.nextStereoFrameMinID = 0 ∧
    (observeDepthUpdatePost target (-2) result_idepth result_var
      result_eplLength absGrad refFrameId numFramesTracked numMapped
      S).1.idepth_var = target.idepth_var * S.FAIL_VAR_INC_FAC ∧
    (target.idepth_var * S.FAIL_VAR_INC_FAC > S.MAX_VAR →
      (observeDepthUpdatePost target (-2) result_idepth result_var
        result_eplLength absGrad refFrameId numFramesTracked numMapped
        S).1.isValid = false ∧
      (observeDepthUpdatePost target (-2) result_idepth result_var
        result_eplLength absGrad refFrameId numFramesTracked numMapped
        S).1.blacklisted = target.blacklisted - 1) ∧
    (¬ target.idepth_var * S.FAIL_VAR_INC_FAC > S.MAX_VAR →
      (observeDepthUpdatePost target (-2) result_idepth result_var
        result_eplLength absGrad refFrameId numFramesTracked numMapped
        S).1.isValid = target.isValid ∧
      (observeDepthUpdatePost target (-2) result_idepth result_var
        result_eplLength absGrad refFrameId numFramesTracked numMapped
        S).1.blacklisted = target.blacklisted) := by
  unfold observeDepthUpdatePost
  rw [if_neg (by norm_num), if_neg (by norm_num), if_pos rfl]
  by_cases hvar : target.idepth_var * S.FAIL_VAR_INC_FAC > S.MAX_VAR
  · rw [if_pos hvar]
    refine ⟨rfl, ?_, rfl, rfl, fun _ => ⟨rfl, rfl⟩,
      fun hn => absurd hvar hn⟩
    show (if target.validity_counter - S.VALIDITY_COUNTER_DEC < 0
        then _ else _) = _
    rw [if_lt_zero_eq_max]
  · rw [if_neg hvar]
    refine ⟨rfl, ?_, rfl, rfl, fun hp => absurd hp hvar,
      fun _ => ⟨rfl, rfl⟩⟩
    show (if target.validity_counter - S.VALIDITY_COUNTER_DEC < 0
        then _ else _) = _
    rw [if_lt_zero_eq_max]

/-- Counterexample for C4 as frozen: on a `-2` result with a small prior
variance (inflated variance `0.11` stays below `MAX_VAR = 0.25`), the
blacklisted counter of the cell is NOT decremented, contradicting the
claim's unconditional decrement. -/
theorem c4_counterexample :
    (observeDepthUpdatePost ⟨true, 1, 1/10, 1, 1, 9, 7, 0⟩ (-2) 0 0 0 0 0 0 0
      exSettings).1.blacklisted = 7 ∧ (7 : ℤ) ≠ 7 - 1 := by
  constructor
  · unfold observeDepthUpdatePost
    rw [if_neg (by norm_num), if_neg (by norm_num), if_pos rfl,
      if_neg (by norm_num [exSettings])]
  · decide

/-- Witness for C4 (amended): the same concrete `-2` update, showing the
unconditional parts and the not-exceeded branch. -/
theorem c4_error2_branch_witness :
    (observeDepthUpdatePost ⟨true, 1, 1/10, 1, 1, 9, 7, 0⟩ (-2) 0 0 0 0 0 0 0
      exSettings).1.validity_counter =
      max 0 ((9 : ℚ) - exSettings.VALIDITY_COUNTER_DEC) ∧
    (observeDepthUpdatePost ⟨true, 1, 1/10, 1, 1, 9, 7, 0⟩ (-2) 0 0 0 0 0 0 0
      exSettings).1.isValid = true :=
  have h := c4_error2_branch ⟨true, 1, 1/10, 1, 1, 9, 7, 0⟩ 0 0 0 0 0 0 0
    exSettings
  ⟨h.2.1, (h.2.2.2.2.2 (by norm_num [exSettings])).1⟩

/-- Claim C5 (amended): on a successful observation with
`result_eplLength < MIN_EPL_LENGTH_CROP`, the cell's
`nextStereoFrameMinID` becomes the floor of `refFrameId + inc` where
`inc = (max(3, numFramesTracked/(numMapped+5)) + parity) * 3` exactly when
`result_eplLength < 0.5*MIN_EPL_LENGTH_CROP` (and `* 1` otherwise), with
`parity = floor(result_eplLength*10000) mod 2`: the parity jitter is added
before the tripling, so it contributes 3 frames in the tripled case. -/
theorem c5_skip_increment (target : DepthMapPixelHypothesis)
    (error result_idepth result_var result_eplLength absGrad : ℚ)
    (refFrameId : ℤ) (numFramesTracked numMapped : ℚ) (S : Settings)
    (h5 : error ≠ -5) (h1 : error ≠ -1) (h2 : error ≠ -2)
    (h3 : error ≠ -3) (h4 : error ≠ -4)
    (hcons : ¬ S.DIFF_FAC_OBSERVE *
      (result_idepth - target.idepth_smoothed) *
      (result_idepth - target.idepth_smoothed) >
      result_var + target.idepth_var_smoothed)
    (hepl : result_eplLength < S.MIN_EPL_LENGTH_CROP) :
    (observeDepthUpdatePost target error result_idepth result_var
      result_eplLength absGrad refFrameId numFramesTracked numMapped
      S).1.nextStereoFrameMinID =
    ((refFrameId : ℚ) +
      (max 3 (numFramesTracked / (numMapped + 5)) +
        (((result_eplLength * 10000).floor % 2 : ℤ) : ℚ)) *
      (if result_eplLength < 0.5 * S.MIN_EPL_LENGTH_CROP then 3
        else 1)).floor := by
  unfold observeDepthUpdatePost
  simp only [if_neg h5, if_neg h1, if_neg h2, if_neg h3, if_neg h4,
    if_neg hcons, if_pos hepl]
  rw [if_lt_three_eq_max]
  by_cases htriple : result_eplLength < 0.5 * S.MIN_EPL_LENGTH_CROP
  · rw [if_pos htriple, if_pos htriple]
  · rw [if_neg htriple, if_neg htriple, mul_one]

/-- Counterexample for C5 as frozen: with `result_eplLength = 1/10000`
(parity 1, below half the crop length of 3) and `tracked/(mapped+5) = 0`,
the code stores `(3 + 1)*3 = 12`, while the claim's
`max(3,...)*3 + parity` formula gives `10`. -/
theorem c5_counterexample :
    (observeDepthUpdatePost ⟨true, 1, 1, 1, 1, 0, 0, 0⟩ 0 1 1 (1/10000) 0 0
      0 0 exSettings).1.nextStereoFrameMinID = 12 ∧
    (12 : ℤ) ≠ 0 + (3 * 3 + 1) := by
  constructor
  · unfold observeDepthUpdatePost
    rw [if_neg (by norm_num), if_neg (by norm_num), if_neg (by norm_num),
      if_neg (by norm_num), if_neg (by norm_num),
      if_neg (by norm_num [exSettings]), if_pos (by norm_num [exSettings])]
    norm_num [exSettings]
    simp only [ratFloor_eq_intFloor, Int.floor_one]
    norm_num
  · decide

/-- Witness for C5 (amended): the same concrete successful observation; the
stored skip id is the floor of `0 + (max 3 0 + 1)*3 = 12`. -/
theorem c5_skip_increment_witness :
    (observeDepthUpdatePost ⟨true, 1, 1, 1, 1, 0, 0, 0⟩ 0 1 1 (1/10000) 0 0
      0 0 exSettings).1.nextStereoFrameMinID =
    (((0 : ℤ) : ℚ) +
      (max 3 ((0 : ℚ) / (0 + 5)) +
        ((((1 : ℚ)/10000 * 10000).floor % 2 : ℤ) : ℚ)) *
      (if (1 : ℚ)/10000 < 0.5 * exSettings.MIN_EPL_LENGTH_CROP then 3
        else 1)).floor :=
  c5_skip_increment ⟨true, 1, 1, 1, 1, 0, 0, 0⟩ 0 1 1 (1/10000) 0 0 0 0
    exSettings (by norm_num) (by norm_num) (by norm_num) (by norm_num)
    (by norm_num) (by norm_num [exSettings]) (by norm_num [exSettings])

end LsdSlam
